import Mathlib

/-!
Verification development for the inja template engine (headers under
include/inja/).  The C++ sources are shallowly embedded: the JSON value
algebra becomes the inductive JVal, the function registry, the callback
cache and the renderer become executable Lean functions that mirror the
corresponding member functions statement by statement.  C++ doubles are
modelled as exact rationals; IEEE rounding and non-finite values are not
tracked, and no theorem below inspects a float payload produced at a
division by zero.  Wall-clock time points are modelled as natural numbers.
-/

namespace Inja

/-! ## Value algebra

Model of the JSON-like value type (spec section 3; the concrete type is
nlohmann::json, external to the repository).  number_integer and
number_unsigned are merged into one integer constructor: no behaviour
used by the verified claims distinguishes them.  Objects keep insertion
order, as the spec prescribes for the value algebra. -/

inductive JVal where
  | null
  | bool (b : Bool)
  | int (n : Int)
  | float (q : ℚ)
  | str (s : String)
  | arr (elems : List JVal)
  | obj (fields : List (String × JVal))

/-- Size of a value, mirroring nlohmann json::size(): null counts 0,
containers their element count, every other value counts 1. -/
def jSize : JVal → Nat
  | .null => 0
  | .arr xs => xs.length
  | .obj fs => fs.length
  | _ => 1

/-- Emptiness, mirroring nlohmann json::empty(): true for null and for
containers without elements, false for every primitive (a primitive acts
as a one-element container). -/
def jempty : JVal → Bool
  | .null => true
  | .arr xs => xs.isEmpty
  | .obj fs => fs.isEmpty
  | _ => false

/-- Element sequence of begin()/end() iteration: arrays yield their
elements, objects their values, null yields nothing, and a primitive
yields itself once. -/
def jElems : JVal → List JVal
  | .null => []
  | .arr xs => xs
  | .obj fs => fs.map Prod.snd
  | v => [v]

/-- Truthiness as implemented by Renderer::truthy.  The argument is an
optional value because the eval stack holds nullable pointers; a missing
value (nullptr) is false.  Note that a non-null string is truthy even
when empty, because json::empty() is false for strings. -/
def truthy : Option JVal → Bool
  | none => false
  | some (.bool b) => b
  | some (.int n) => decide (n ≠ 0)
  | some (.float q) => decide (q ≠ 0)
  | some .null => false
  | some v => !(jempty v)

/-- Lookup of a key in an object field list (json object find). -/
def jObjFind (fields : List (String × JVal)) (k : String) : Option JVal :=
  (fields.find? (fun p => p.1 == k)).map Prod.snd

/-- Update or append a key in an object field list, preserving the
position of an existing key and appending a new one. -/
def jObjSet (fields : List (String × JVal)) (k : String) (v : JVal) : List (String × JVal) :=
  if (fields.find? (fun p => p.1 == k)).isSome then
    fields.map (fun p => if p.1 == k then (p.1, v) else p)
  else fields ++ [(k, v)]

/-- Path lookup by a json_pointer, given as its list of reference
tokens.  Objects are entered by key, arrays by a numeric token.  (The
leading-zero restriction nlohmann places on array tokens is not
modelled; the verified claims only traverse object keys.) -/
def jLookup : JVal → List String → Option JVal
  | v, [] => some v
  | .obj fs, k :: rest =>
    match jObjFind fs k with
    | some v => jLookup v rest
    | none => none
  | .arr xs, k :: rest =>
    match k.toNat? with
    | some i =>
      match xs[i]? with
      | some v => jLookup v rest
      | none => none
    | none => none
  | _, _ :: _ => none

/-- json::contains(json_pointer). -/
def jContains (v : JVal) (ptr : List String) : Bool :=
  (jLookup v ptr).isSome

/-- Write through operator[](json_pointer).  Missing object keys are
created (as in nlohmann, where the chain creates nulls that the final
assignment replaces); writing into an array updates an existing index.
Descending into a primitive is a json type_error, returned as none.
(nlohmann would create an array rather than an object for a numeric or
"-" first token; the verified claims only write object keys.) -/
def jSetPtr : JVal → List String → JVal → Option JVal
  | _, [], v => some v
  | .obj fs, k :: rest, v =>
    match jSetPtr ((jObjFind fs k).getD .null) rest v with
    | some sub => some (.obj (jObjSet fs k sub))
    | none => none
  | .null, k :: rest, v =>
    match jSetPtr .null rest v with
    | some sub => some (.obj [(k, sub)])
    | none => none
  | .arr xs, k :: rest, v =>
    match k.toNat? with
    | some i =>
      match xs[i]? with
      | some old =>
        match jSetPtr old rest v with
        | some sub => some (.arr (xs.set i sub))
        | none => none
      | none => none
    | none => none
  | _, _ :: _, _ => none

/-- Write through operator[](string key): object insert-or-update; a
null value becomes a one-field object; any other receiver is a json
type_error, returned as none. -/
def jSetKey (v : JVal) (k : String) (x : JVal) : Option JVal :=
  match v with
  | .obj fs => some (.obj (jObjSet fs k x))
  | .null => some (.obj [(k, x)])
  | _ => none

/-- Splitting a dotted name into json_pointer reference tokens (the
sources build "/" ++ key with dots replaced by slashes and parse it as
a json_pointer; its token list is exactly the dot-separated segments). -/
def split_on_dot (s : String) : List String :=
  go s.data []
where
  go : List Char → List Char → List String
    | [], acc => [acc.reverse.asString]
    | c :: rest, acc =>
      if c = '.' then acc.reverse.asString :: go rest [] else go rest (c :: acc)

/-- json::clear(): containers are emptied, primitives reset to their
default value, null stays null. -/
def jclear : JVal → JVal
  | .null => .null
  | .bool _ => .bool false
  | .int _ => .int 0
  | .float _ => .float 0
  | .str _ => .str ""
  | .arr _ => .arr []
  | .obj _ => .obj []

/-- json::is_null(). -/
def jIsNull : JVal → Bool
  | .null => true
  | _ => false

/-- get of an arithmetic value as a double: nlohmann converts any
number and also booleans; other types throw a json type_error (none). -/
def jToFloat : JVal → Option ℚ
  | .int n => some (n : ℚ)
  | .float q => some q
  | .bool b => some (if b then 1 else 0)
  | _ => none

/-- Escape of one character inside a dumped JSON string. -/
def escapeJsonChar (c : Char) : String :=
  if c = '"' then "\\\"" else if c = '\\' then "\\\\" else String.singleton c

/-- Compact serialisation, mirroring json::dump(-1).  Double formatting
is abstracted (the model prints the exact rational); every theorem that
involves dumped text treats it as an opaque key, never parsing it. -/
def jdump : JVal → String
  | .null => "null"
  | .bool b => if b then "true" else "false"
  | .int n => toString n
  | .float q => toString q
  | .str s => "\"" ++ String.join (s.toList.map escapeJsonChar) ++ "\""
  | .arr xs => "[" ++ dumpElems xs ++ "]"
  | .obj fs => "\x7b" ++ dumpFields fs ++ "\x7d"
where
  dumpElems : List JVal → String
    | [] => ""
    | [x] => jdump x
    | x :: y :: rest => jdump x ++ "," ++ dumpElems (y :: rest)
  dumpFields : List (String × JVal) → String
    | [] => ""
    | [(k, x)] => "\"" ++ k ++ "\":" ++ jdump x
    | (k, x) :: f :: rest => "\"" ++ k ++ "\":" ++ jdump x ++ "," ++ dumpFields (f :: rest)

/-! ## Function storage (function_storage.hpp) -/

/-- Arguments passed to a callback: a vector of nullable pointers to
values.  none models a null pointer. -/
abbrev Arguments := List (Option JVal)

/-- User callback: receives the argument vector and returns a value.
The C++ std::function may carry arbitrary host side effects; the model
treats the returned value as its observable behaviour and the renderer
additionally logs every invocation (see RenderState.callback_log). -/
abbrev CallbackFunction := Arguments → JVal

/-- In-place callback: receives the current value of the first argument
(a mutable reference in C++) together with the remaining arguments, and
the model returns the mutated first argument. -/
abbrev InPlaceCallbackFunction := JVal → Arguments → JVal

/-- FunctionStorage::Operation. -/
inductive Operation where
  | Not | And | Or | In | Equal | NotEqual | Greater | GreaterEqual
  | Less | LessEqual | Add | Subtract | Multiplication | Division
  | Power | Modulo | AtId | At | Capitalize | Default | DivisibleBy
  | Even | Exists | ExistsInObject | First | Float | Int | IsArray
  | IsBoolean | IsFloat | IsInteger | IsNumber | IsObject | IsString
  | Last | Length | Lower | Max | Min | Odd | Range | Replace | Round
  | Sort | Upper | Super | Join | Callback | None
deriving DecidableEq

/-- FunctionStorage::FunctionData.  An empty std::function is modelled
as none. -/
structure FunctionData where
  operation : Operation
  callback : Option CallbackFunction := Option.none
  inplace_callback : Option InPlaceCallbackFunction := Option.none

/-- The storage maps (name, number of arguments) to FunctionData.  The
std::map is modelled as an association list with unique keys; lookup is
by key equality, so the map's internal ordering is immaterial. -/
abbrev FunctionStorage := List ((String × Int) × FunctionData)

/-- The variadic marker arity. -/
def VARIADIC : Int := -1

/-- std::map::emplace: inserts only when the key is not present yet
(the registry is append-only; re-registration of an existing key is a
no-op). -/
def FunctionStorage.emplace (s : FunctionStorage) (key : String × Int) (fd : FunctionData) :
    FunctionStorage :=
  if (s.find? (fun p => p.1 == key)).isSome then s else s ++ [(key, fd)]

/-- FunctionStorage::add_callback (the two-callback overload registers
the in-place variant as well). -/
def FunctionStorage.add_callback (s : FunctionStorage) (name : String) (num_args : Int)
    (cb : CallbackFunction) (inplace_cb : Option InPlaceCallbackFunction := Option.none) :
    FunctionStorage :=
  s.emplace (name, num_args) ⟨.Callback, some cb, inplace_cb⟩

/-- FunctionStorage::find_function: exact (name, num_args) lookup
first; only when that fails and num_args is positive, the variadic
(name, -1) entry; otherwise an Operation::None entry. -/
def find_function (s : FunctionStorage) (name : String) (num_args : Int) : FunctionData :=
  match s.find? (fun p => p.1 == (name, num_args)) with
  | some p => p.2
  | Option.none =>
    if num_args > 0 then
      match s.find? (fun p => p.1 == (name, VARIADIC)) with
      | some p => p.2
      | Option.none => ⟨.None, Option.none, Option.none⟩
    else ⟨.None, Option.none, Option.none⟩

/-- The built-in entries the storage is initialised with. -/
def builtin_function_storage : FunctionStorage :=
  [ (("at", 2), ⟨.At, Option.none, Option.none⟩),
    (("capitalize", 1), ⟨.Capitalize, Option.none, Option.none⟩),
    (("default", 2), ⟨.Default, Option.none, Option.none⟩),
    (("divisibleBy", 2), ⟨.DivisibleBy, Option.none, Option.none⟩),
    (("even", 1), ⟨.Even, Option.none, Option.none⟩),
    (("exists", 1), ⟨.Exists, Option.none, Option.none⟩),
    (("existsIn", 2), ⟨.ExistsInObject, Option.none, Option.none⟩),
    (("first", 1), ⟨.First, Option.none, Option.none⟩),
    (("float", 1), ⟨.Float, Option.none, Option.none⟩),
    (("int", 1), ⟨.Int, Option.none, Option.none⟩),
    (("isArray", 1), ⟨.IsArray, Option.none, Option.none⟩),
    (("isBoolean", 1), ⟨.IsBoolean, Option.none, Option.none⟩),
    (("isFloat", 1), ⟨.IsFloat, Option.none, Option.none⟩),
    (("isInteger", 1), ⟨.IsInteger, Option.none, Option.none⟩),
    (("isNumber", 1), ⟨.IsNumber, Option.none, Option.none⟩),
    (("isObject", 1), ⟨.IsObject, Option.none, Option.none⟩),
    (("isString", 1), ⟨.IsString, Option.none, Option.none⟩),
    (("last", 1), ⟨.Last, Option.none, Option.none⟩),
    (("length", 1), ⟨.Length, Option.none, Option.none⟩),
    (("lower", 1), ⟨.Lower, Option.none, Option.none⟩),
    (("max", 1), ⟨.Max, Option.none, Option.none⟩),
    (("min", 1), ⟨.Min, Option.none, Option.none⟩),
    (("odd", 1), ⟨.Odd, Option.none, Option.none⟩),
    (("range", 1), ⟨.Range, Option.none, Option.none⟩),
    (("replace", 3), ⟨.Replace, Option.none, Option.none⟩),
    (("round", 2), ⟨.Round, Option.none, Option.none⟩),
    (("sort", 1), ⟨.Sort, Option.none, Option.none⟩),
    (("upper", 1), ⟨.Upper, Option.none, Option.none⟩),
    (("super", 0), ⟨.Super, Option.none, Option.none⟩),
    (("super", 1), ⟨.Super, Option.none, Option.none⟩),
    (("join", 2), ⟨.Join, Option.none, Option.none⟩) ]

/-! ## Callback cache (callback_cache.hpp)

The reader-writer lock and the atomicity of the counters are outside a
sequential model; each operation is modelled as the state transformer
it performs under the lock.  steady_clock time points are naturals. -/

/-- CallbackCacheConfig. -/
structure CallbackCacheConfig where
  ttl : Nat := 5000
  max_entries : Nat := 10000
  cache_void_callbacks : Bool := false

/-- CallbackCache::CacheEntry. -/
structure CacheEntry where
  value : JVal
  expiry : Nat
  key : String

/-- The cache state: the key set of the unordered_map from keys to list
iterators, the LRU list (front = most recently used), and the counters.
An iterator stored in the map is identified by the key of the node it
points at; under the cache invariant (claim C10) keys in the list are
unique, so this identification is faithful. -/
structure CacheState where
  cache_map : List String
  lru_list : List CacheEntry
  hits : Nat := 0
  misses : Nat := 0
  evictions : Nat := 0

/-- CallbackCache::make_cache_key: name, a colon, then the compact dump
of each argument separated by commas; a null pointer argument
serialises as "null". -/
def make_cache_key (function_name : String) (args : Arguments) : String :=
  function_name ++ ":" ++ joinArgs true args
where
  joinArgs : Bool → Arguments → String
    | _, [] => ""
    | first, a :: rest =>
      (if first then "" else ",") ++
        (match a with
         | some v => jdump v
         | Option.none => "null") ++ joinArgs false rest

/-- Dereference of a stored iterator: the unique node with the given
key. -/
def findNode (lru : List CacheEntry) (key : String) : Option CacheEntry :=
  lru.find? (fun e => e.key == key)

/-- One map erase of a key. -/
def eraseKey (m : List String) (key : String) : List String :=
  m.filter (fun k => k != key)

/-- CallbackCache::remove_expired_entries_locked, acting on the
reversed LRU list (head = least recently used): pop expired nodes from
the tail, erasing each key from the map and counting an eviction, until
the tail entry is live. -/
def remove_expired_rev (now : Nat) :
    List CacheEntry → List String → Nat → List CacheEntry × List String × Nat
  | [], m, ev => ([], m, ev)
  | e :: rest, m, ev =>
    if e.expiry ≤ now then remove_expired_rev now rest (eraseKey m e.key) (ev + 1)
    else (e :: rest, m, ev)

/-- CallbackCache::remove_expired_entries_locked. -/
def remove_expired_entries (now : Nat) (st : CacheState) : CacheState :=
  let r := remove_expired_rev now st.lru_list.reverse st.cache_map st.evictions
  { st with lru_list := r.1.reverse, cache_map := r.2.1, evictions := r.2.2 }

/-- CallbackCache::evict_if_needed_locked loop body, on the reversed
LRU list: while the map still holds at least max_entries entries, pop
the least recently used node. -/
def evict_rev (max_entries : Nat) :
    List CacheEntry → List String → Nat → List CacheEntry × List String × Nat
  | [], m, ev => ([], m, ev)
  | e :: rest, m, ev =>
    if max_entries ≤ m.length then evict_rev max_entries rest (eraseKey m e.key) (ev + 1)
    else (e :: rest, m, ev)

/-- CallbackCache::evict_if_needed_locked: no-op when max_entries is 0
(unbounded). -/
def evict_if_needed (max_entries : Nat) (st : CacheState) : CacheState :=
  if max_entries = 0 then st
  else
    let r := evict_rev max_entries st.lru_list.reverse st.cache_map st.evictions
    { st with lru_list := r.1.reverse, cache_map := r.2.1, evictions := r.2.2 }

/-- CallbackCache::try_get.  Returns the hit flag, the value written to
the out parameter, and the state after the call (only the counters can
change). -/
def try_get (now : Nat) (function_name : String) (args : Arguments) (st : CacheState) :
    Bool × Option JVal × CacheState :=
  let key := make_cache_key function_name args
  if st.cache_map.contains key then
    match findNode st.lru_list key with
    | some e =>
      if now < e.expiry then (true, some e.value, { st with hits := st.hits + 1 })
      else (false, Option.none, { st with misses := st.misses + 1 })
    | Option.none =>
      -- a dangling iterator; unreachable while the cache invariant holds
      (false, Option.none, { st with misses := st.misses + 1 })
  else (false, Option.none, { st with misses := st.misses + 1 })

/-- CallbackCache::put.  A null value is not stored unless
cache_void_callbacks is set.  Expired tail entries are drained first;
an existing key is updated in place and spliced to the front; a new key
is inserted at the front after capacity eviction. -/
def put (config : CallbackCacheConfig) (now : Nat) (function_name : String) (args : Arguments)
    (value : JVal) (st : CacheState) : CacheState :=
  if !config.cache_void_callbacks && jIsNull value then st
  else
    let key := make_cache_key function_name args
    let expiry := now + config.ttl
    let st := remove_expired_entries now st
    if st.cache_map.contains key then
      match findNode st.lru_list key with
      | some e =>
        { st with lru_list :=
            { e with value := value, expiry := expiry } ::
              st.lru_list.filter (fun n => n.key != key) }
      | Option.none => st  -- dangling iterator; unreachable under the invariant
    else
      let st := evict_if_needed config.max_entries st
      { st with lru_list := ⟨value, expiry, key⟩ :: st.lru_list,
                cache_map := key :: st.cache_map }

/-- CallbackCache::clear. -/
def CacheState.clear (st : CacheState) : CacheState :=
  { st with cache_map := [], lru_list := [] }

/-- CallbackCache::invalidate loop: walk the LRU list front to back and
remove every node whose key starts with the prefix, erasing it from the
map and counting it. -/
def invalidate_go (pfx : String) :
    List CacheEntry → List String → Nat → List CacheEntry × List String × Nat
  | [], m, removed => ([], m, removed)
  | e :: rest, m, removed =>
    if pfx.isPrefixOf e.key then invalidate_go pfx rest (eraseKey m e.key) (removed + 1)
    else
      let r := invalidate_go pfx rest m removed
      (e :: r.1, r.2.1, r.2.2)

/-- CallbackCache::invalidate: removes all entries of one function
name, returning the state and the number of removed entries. -/
def invalidate (function_name : String) (st : CacheState) : CacheState × Nat :=
  let r := invalidate_go (function_name ++ ":") st.lru_list st.cache_map 0
  ({ st with lru_list := r.1, cache_map := r.2.1 }, r.2.2)

/-! ## Renderer (renderer.hpp, config.hpp)

The renderer is embedded as a family of state transformers over
RenderState.  A C++ exception in flight is an Except.error carrying the
RenderError together with the state at the throw point, so that catch
sites resume with the side effects performed before the throw, exactly
as the C++ does. -/

/-- Instrumentation event kinds (config.hpp). -/
inductive InstrumentationEvent where
  | RenderStart | RenderEnd
  | SetStatementStart | SetStatementEnd
  | InplaceOptUsed | InplaceOptSkipped
  | ExpressionEvalStart | ExpressionEvalEnd
  | ForLoopStart | ForLoopIteration | ForLoopEnd
  | IncludeStart | IncludeEnd
deriving DecidableEq

/-- Instrumentation payload (config.hpp). -/
structure InstrumentationData where
  event : InstrumentationEvent
  name : String := ""
  detail : String := ""
  count : Nat := 0
deriving DecidableEq

/-- Callback wrapper (config.hpp): receives the function name, the
argument vector and a thunk running the actual callback.  The model
assumes the wrapper invokes the thunk exactly once — the contract every
wrapper shipped in the repository obeys — so it is a pure function of
the name, the arguments and the thunk's result. -/
abbrev CallbackWrapper := String → Arguments → JVal → JVal

/-- RenderConfig (config.hpp).  instrumented stands for whether an
instrumentation_callback is installed; emitted events are modelled as
the trace of its invocations. -/
structure RenderConfig where
  throw_at_missing_includes : Bool := true
  html_autoescape : Bool := false
  graceful_errors : Bool := false
  callback_wrapper : Option CallbackWrapper := Option.none
  instrumented : Bool := false

/-- A raised RenderError.  Locations are kept as source offsets; the
conversion of an offset to line and column lives in utils.hpp, outside
src/, and no claim inspects it. -/
structure RenderError where
  message : String
  pos : Nat

/-- A graceful-mode error record.  Modelled from the spec: the record
carries the message, the location and the literal template span
(RenderErrorInfo is declared in exceptions.hpp, which is not under
src/). -/
structure RenderErrorInfo where
  message : String
  pos : Nat
  original_text : String
deriving DecidableEq

/-- Expression AST (node.hpp is not under src/; the node shapes are
modelled from the spec's data-model section and from how renderer.hpp
consumes them).  Every node carries its source offset where the
renderer uses one; pointers are kept as their list of reference
tokens. -/
inductive AstExpr where
  | literal (value : JVal)
  | data (name : String) (ptr : List String) (pos : Nat)
  | function (name : String) (operation : Operation) (arguments : List AstExpr)
      (callback : Option CallbackFunction) (pos : Nat)

/-- ExpressionListNode: root of an expression plus the source span used
for graceful echo. -/
structure ExpressionListNode where
  root : Option AstExpr
  pos : Nat := 0
  length : Nat := 0

/-- Statement AST: the node kinds the verified claims exercise.  A
block body is its list of statement nodes. -/
inductive AstNode where
  | text (pos length : Nat)
  | expression_list (node : ExpressionListNode)
  | block (nodes : List AstNode)
  | for_array (value : String) (condition : ExpressionListNode) (body : List AstNode) (pos : Nat)
  | set_statement (key : String) (expression : ExpressionListNode) (pos : Nat)

/-- Read-only data of one render: configuration, function storage
snapshot, the current template's content and the input data. -/
structure RenderContext where
  config : RenderConfig
  function_storage : FunctionStorage
  template_content : String := ""
  data_input : JVal := .null

/-- Mutable renderer state.  additional_data starts as an object with a
null "loop" member because the constructor's current_loop_data pointer
initialisation inserts it.  callback_log records the sequence of user
callback invocations: it stands for the host side effects a callback
may have, which is what the no-short-circuit claim is about. -/
structure RenderState where
  additional_data : JVal := .obj [("loop", .null)]
  data_eval_stack : List (Option JVal) := []
  not_found_stack : List (String × Nat) := []
  output : String := ""
  render_errors : List RenderErrorInfo := []
  events : List InstrumentationData := []
  callback_log : List String := []

/-- A C++ exception in flight: the error and the state at the throw. -/
abbrev RFail := RenderError × RenderState

/-- std::string::substr(pos, len), on characters (the sources only ever
slice at ASCII boundaries, where byte and character offsets agree). -/
def substr (s : String) (pos len : Nat) : String :=
  ((s.data.drop pos).take len).asString

/-- Renderer::htmlescape on one character. -/
def htmlescapeChar (c : Char) : String :=
  if c = '&' then "&amp;"
  else if c = '"' then "&quot;"
  else if c = '\'' then "&apos;"
  else if c = '<' then "&lt;"
  else if c = '>' then "&gt;"
  else String.singleton c

/-- Renderer::htmlescape. -/
def htmlescape (s : String) : String :=
  String.join (s.toList.map htmlescapeChar)

/-- Renderer::print_data: strings are written raw (escaped when
html_autoescape is on), integers as digits, null writes nothing, and
every other value is dumped. -/
def print_data (cfg : RenderConfig) (value : JVal) : String :=
  match value with
  | .str s => if cfg.html_autoescape then htmlescape s else s
  | .int n => toString n
  | .null => ""
  | v => jdump v

/-- Renderer::emit_event: appends to the event trace when an
instrumentation callback is installed. -/
def emit_event (cfg : RenderConfig) (d : InstrumentationData) (st : RenderState) : RenderState :=
  if cfg.instrumented then { st with events := st.events ++ [d] } else st

/-- Renderer::throw_renderer_error: in graceful mode the error is
recorded and control returns to the caller; otherwise a RenderError is
raised. -/
def throw_renderer_error (cfg : RenderConfig) (message : String) (pos : Nat)
    (original_text : String) (st : RenderState) : Except RFail RenderState :=
  if cfg.graceful_errors then
    .ok { st with render_errors := st.render_errors ++ [⟨message, pos, original_text⟩] }
  else .error (⟨message, pos⟩, st)

/-- Renderer::make_result: the result value is pushed on the eval
stack (ownership by the temporary-values arena is implicit in the
by-value model). -/
def make_result (value : JVal) (st : RenderState) : RenderState :=
  { st with data_eval_stack := some value :: st.data_eval_stack }

/-- The pop loop shared by get_arguments and get_argument_vector: pop n
values, resolving a popped null pointer against the not-found stack.
With throw_not_found, a missing value reports the error and (in
graceful mode) is replaced by the static empty (null) json; without it,
the null is handed to the caller.  Underflow of either stack is
undefined behaviour in the source (the pops would read popped-off
memory) and is modelled as a failure. -/
def pop_arg_loop (cfg : RenderConfig) (throw_not_found : Bool) (pos : Nat) :
    Nat → Arguments → RenderState → Except RFail (Arguments × RenderState)
  | 0, acc, st => .ok (acc, st)
  | n + 1, acc, st =>
    match st.data_eval_stack with
    | [] => .error (⟨"eval stack underflow (undefined behaviour in the source)", pos⟩, st)
    | v :: stack =>
      let st := { st with data_eval_stack := stack }
      match v with
      | some value => pop_arg_loop cfg throw_not_found pos n (some value :: acc) st
      | Option.none =>
        match st.not_found_stack with
        | [] => .error (⟨"not-found stack underflow (undefined behaviour in the source)", pos⟩, st)
        | (nf_name, nf_pos) :: nf_rest =>
          let st := { st with not_found_stack := nf_rest }
          if throw_not_found then do
            let st ← throw_renderer_error cfg ("variable '" ++ nf_name ++ "' not found") nf_pos "" st
            pop_arg_loop cfg throw_not_found pos n (some .null :: acc) st
          else pop_arg_loop cfg throw_not_found pos n (Option.none :: acc) st

/-- The stack-size guard plus pop loop of get_arguments and
get_argument_vector.  The returned vector is in argument order. -/
def get_stack_args (cfg : RenderConfig) (n : Nat) (throw_not_found : Bool) (pos : Nat)
    (st : RenderState) : Except RFail (Arguments × RenderState) := do
  let st ← (if st.data_eval_stack.length < n then
      throw_renderer_error cfg
        ("function needs " ++ toString n ++ " variables, but has only found " ++
          toString st.data_eval_stack.length) pos "" st
    else .ok st)
  pop_arg_loop cfg throw_not_found pos n [] st

/-- The argument-count guard of get_arguments.  When it fires in
graceful mode the source would go on to index the argument vector out
of bounds: undefined behaviour, modelled as a failure. -/
def check_arity (cfg : RenderConfig) (need available : Nat) (pos : Nat) (st : RenderState) :
    Except RFail RenderState := do
  let st ← throw_renderer_error cfg
    ("function needs " ++ toString need ++ " variables, but has only found " ++
      toString available) pos "" st
  .error (⟨"argument access out of bounds (undefined behaviour in the source)", pos⟩, st)

/-- The INJA_OP_TRY_* exception barrier around an operation body: a
C++ exception is caught, and either a null/not-found pair is pushed
(graceful) or a RenderError naming the operation is raised. -/
def op_try (cfg : RenderConfig) (op_name : String) (pos : Nat)
    (body : Except RFail RenderState) : Except RFail RenderState :=
  match body with
  | .ok st => .ok st
  | .error (e, st) =>
    if cfg.graceful_errors then
      .ok { st with data_eval_stack := Option.none :: st.data_eval_stack,
                    not_found_stack := (op_name, pos) :: st.not_found_stack }
    else .error (⟨"operation '" ++ op_name ++ "' failed: " ++ e.message, pos⟩, st)

/-- Is the value an array. -/
def jIsArray : JVal → Bool
  | .arr _ => true
  | _ => false

/-- Renderer::visit(const DataNode&): additional data first, then the
input data, then a zero-argument callback (through the wrapper when one
is configured), and otherwise the null sentinel plus a not-found
record.  Invoking a registered Callback entry whose std::function is
empty would raise std::bad_function_call; no entry made through
add_callback is in that state. -/
def visit_data (ctx : RenderContext) (name : String) (ptr : List String) (pos : Nat)
    (st : RenderState) : Except RFail RenderState :=
  match jLookup st.additional_data ptr with
  | some v => .ok { st with data_eval_stack := some v :: st.data_eval_stack }
  | Option.none =>
    match jLookup ctx.data_input ptr with
    | some v => .ok { st with data_eval_stack := some v :: st.data_eval_stack }
    | Option.none =>
      let function_data := find_function ctx.function_storage name 0
      if function_data.operation = .Callback then
        match function_data.callback with
        | some f =>
          let value :=
            match ctx.config.callback_wrapper with
            | some w => w name [] (f [])
            | Option.none => f []
          .ok (make_result value { st with callback_log := st.callback_log ++ [name] })
        | Option.none => .error (⟨"bad function call", pos⟩, st)
      else
        .ok { st with data_eval_stack := Option.none :: st.data_eval_stack,
                      not_found_stack := (name, pos) :: st.not_found_stack }

mutual

/-- Renderer expression dispatch: visit(LiteralNode), visit(DataNode)
and visit(FunctionNode).  Of the FunctionNode operations, the ones the
verified claims exercise are embedded (Not, And, Or, Division,
Callback, None); the remaining built-ins are not modelled and mapped to
an explicit failure rather than to guessed semantics. -/
def evalExpr (ctx : RenderContext) : AstExpr → RenderState → Except RFail RenderState
  | .literal v, st => .ok { st with data_eval_stack := some v :: st.data_eval_stack }
  | .data name ptr pos, st => visit_data ctx name ptr pos st
  | .function name op args cb pos, st =>
    match op with
    | .Not =>
      match args with
      | a0 :: _ => do
        let st ← evalExpr ctx a0 st
        let (vs, st) ← get_stack_args ctx.config 1 true pos st
        .ok (make_result (.bool (!truthy (vs.headD Option.none))) st)
      | [] => check_arity ctx.config 1 0 pos st
    | .And =>
      -- make_result(truthy(get_arguments<1, 0>..) && truthy(get_arguments<1, 1>..)):
      -- the built-in && evaluates its right operand only when the left one is true
      match args with
      | a0 :: rest => do
        let st ← evalExpr ctx a0 st
        let (vs0, st) ← get_stack_args ctx.config 1 true pos st
        if truthy (vs0.headD Option.none) then
          match rest with
          | a1 :: _ => do
            let st ← evalExpr ctx a1 st
            let (vs1, st) ← get_stack_args ctx.config 1 true pos st
            .ok (make_result (.bool (truthy (vs1.headD Option.none))) st)
          | [] => check_arity ctx.config 2 1 pos st
        else .ok (make_result (.bool false) st)
      | [] => check_arity ctx.config 1 0 pos st
    | .Or =>
      -- the built-in || evaluates its right operand only when the left one is false
      match args with
      | a0 :: rest => do
        let st ← evalExpr ctx a0 st
        let (vs0, st) ← get_stack_args ctx.config 1 true pos st
        if truthy (vs0.headD Option.none) then .ok (make_result (.bool true) st)
        else
          match rest with
          | a1 :: _ => do
            let st ← evalExpr ctx a1 st
            let (vs1, st) ← get_stack_args ctx.config 1 true pos st
            .ok (make_result (.bool (truthy (vs1.headD Option.none))) st)
          | [] => check_arity ctx.config 2 1 pos st
      | [] => check_arity ctx.config 1 0 pos st
    | .Division =>
      op_try ctx.config "division" pos
        (match args with
         | a0 :: a1 :: _ => do
           let st ← evalExpr ctx a0 st
           let st ← evalExpr ctx a1 st
           let (vs, st) ← get_stack_args ctx.config 2 true pos st
           let arg0 := (vs.headD Option.none).getD .null
           let arg1 := ((vs.drop 1).headD Option.none).getD .null
           match jToFloat arg1 with
           | Option.none => .error (⟨"type must be number", pos⟩, st)
           | some d => do
             let st ← (if d = 0 then throw_renderer_error ctx.config "division by zero" pos "" st
                       else .ok st)
             match jToFloat arg0 with
             | Option.none => .error (⟨"type must be number", pos⟩, st)
             | some numer => .ok (make_result (.float (numer / d)) st)
         | _ => check_arity ctx.config 2 args.length pos st)
    | .Callback =>
      match cb with
      | Option.none =>
        -- the node has no callback: unknown function found at parse time
        if ctx.config.graceful_errors then
          .ok { st with data_eval_stack := Option.none :: st.data_eval_stack,
                        not_found_stack := (name, pos) :: st.not_found_stack }
        else do
          let st ← throw_renderer_error ctx.config
            ("function '" ++ name ++ "' not found or has no callback") pos "" st
          .ok st
      | some f => do
        let st ← eval_args ctx args st
        let (vs, st) ← get_stack_args ctx.config args.length true pos st
        let result :=
          match ctx.config.callback_wrapper with
          | some w => w name vs (f vs)
          | Option.none => f vs
        .ok (make_result result { st with callback_log := st.callback_log ++ [name] })
    | .None =>
      -- unknown function: in graceful mode a null/not-found pair, otherwise nothing
      if ctx.config.graceful_errors then
        .ok { st with data_eval_stack := Option.none :: st.data_eval_stack,
                      not_found_stack := (name, pos) :: st.not_found_stack }
      else .ok st
    | _ => .error (⟨"operation not modelled in this embedding", pos⟩, st)

/-- The evaluation loop of get_argument_vector: every argument
expression is evaluated (arguments are pushed left to right). -/
def eval_args (ctx : RenderContext) : List AstExpr → RenderState → Except RFail RenderState
  | [], st => .ok st
  | a :: rest, st => do
    let st ← evalExpr ctx a st
    eval_args ctx rest st

end

/-- The render-error records carried by an evaluation outcome, whether
it returned or raised. -/
def errors_of (r : Except RFail RenderState) : List RenderErrorInfo :=
  match r with
  | .ok st => st.render_errors
  | .error (_, st) => st.render_errors

/-- Renderer::eval_expression_list: evaluates the root, checks that the
eval stack holds exactly one value, and resolves a null sentinel
against the not-found stack.  In graceful mode each failure is recorded
(with the original source span when the node has one) and none is
returned; otherwise a RenderError is raised. -/
def eval_expression_list (ctx : RenderContext) (el : ExpressionListNode) (st : RenderState) :
    Except RFail (Option JVal × RenderState) :=
  let original : String :=
    if ctx.config.graceful_errors ∧ el.length > 0 then
      substr ctx.template_content el.pos el.length
    else ""
  match el.root with
  | Option.none => do
    let st ← throw_renderer_error ctx.config "empty expression" el.pos original st
    .ok (Option.none, st)
  | some root => do
    let st ← evalExpr ctx root st
    match st.data_eval_stack with
    | [] => do
      let st ← throw_renderer_error ctx.config "empty expression" el.pos original st
      .ok (Option.none, st)
    | [v] =>
      let st := { st with data_eval_stack := [] }
      match v with
      | some value => .ok (some value, st)
      | Option.none =>
        match st.not_found_stack with
        | [] => do
          let st ← throw_renderer_error ctx.config "expression could not be evaluated" el.pos original st
          .ok (Option.none, st)
        | (nf_name, nf_pos) :: nf_rest => do
          let st ← throw_renderer_error ctx.config ("variable '" ++ nf_name ++ "' not found")
            nf_pos original { st with not_found_stack := nf_rest }
          .ok (Option.none, st)
    | _ :: _ :: _ => do
      let st ← throw_renderer_error ctx.config "malformed expression" el.pos original st
      .ok (Option.none, st)

/-- Write to additional_data through operator[](string key); a receiver
that is neither an object nor null is a json type_error. -/
def set_key_checked (k : String) (x : JVal) (pos : Nat) (st : RenderState) :
    Except RFail RenderState :=
  match jSetKey st.additional_data k x with
  | some ad => .ok { st with additional_data := ad }
  | Option.none => .error (⟨"json type_error", pos⟩, st)

/-- Write to the current loop object (current_loop_data always points
at additional_data["loop"] in the modelled node set). -/
def set_loop_field (k : String) (x : JVal) (pos : Nat) (st : RenderState) :
    Except RFail RenderState :=
  match jSetPtr st.additional_data ["loop", k] x with
  | some ad => .ok { st with additional_data := ad }
  | Option.none => .error (⟨"json type_error", pos⟩, st)

/-- Write to additional_data through operator[](json_pointer). -/
def set_ptr_checked (ptr : List String) (x : JVal) (pos : Nat) (st : RenderState) :
    Except RFail RenderState :=
  match jSetPtr st.additional_data ptr x with
  | some ad => .ok { st with additional_data := ad }
  | Option.none => .error (⟨"json type_error", pos⟩, st)

/-- The remaining-argument loop of try_inplace_self_assignment: each
argument from the second on is evaluated and the raw top of the eval
stack (possibly a null pointer) is collected; the not-found stack is
not consulted. -/
def eval_remaining_args (ctx : RenderContext) (pos : Nat) :
    List AstExpr → RenderState → Except RFail (Arguments × RenderState)
  | [], st => .ok ([], st)
  | a :: rest, st => do
    let st ← evalExpr ctx a st
    match st.data_eval_stack with
    | v :: stack => do
      let (vs, st) ← eval_remaining_args ctx pos rest { st with data_eval_stack := stack }
      .ok (v :: vs, st)
    | [] => .error (⟨"eval stack underflow (undefined behaviour in the source)", pos⟩, st)

/-- Renderer::try_inplace_self_assignment.  Returns whether the
in-place fast path was used.  The callback wrapper routing on this path
passes a synthetic size marker to the wrapper and discards its result;
since the modelled wrapper has no observable effect beyond its return
value, that routing leaves no trace here. -/
def try_inplace_self_assignment (ctx : RenderContext) (key : String) (ptr : List String)
    (expr : ExpressionListNode) (st : RenderState) : Except RFail (Bool × RenderState) :=
  match expr.root with
  | Option.none => .ok (false, st)
  | some root =>
    match root with
    | .function fname fop fargs _ fpos =>
      if fop ≠ .Callback then .ok (false, st)
      else
        match fargs with
        | [] => .ok (false, st)
        | first :: rest =>
          match first with
          | .data dname _ _ =>
            if dname ≠ key then .ok (false, st)
            else
              let func_data := find_function ctx.function_storage fname (fargs.length : Int)
              if func_data.operation ≠ .Callback ∨ func_data.inplace_callback.isNone then
                .ok (false, emit_event ctx.config
                  ⟨.InplaceOptSkipped, key, "no_inplace_cb:" ++ fname, 0⟩ st)
              else if !(jContains st.additional_data ptr) then
                .ok (false, emit_event ctx.config
                  ⟨.InplaceOptSkipped, key, "var_not_exists:" ++ fname, 0⟩ st)
              else do
                let target := (jLookup st.additional_data ptr).getD .null
                let (remaining, st) ← eval_remaining_args ctx fpos rest st
                let icb := func_data.inplace_callback.getD (fun t _ => t)
                let mutated := icb target remaining
                let st ← set_ptr_checked ptr mutated fpos st
                let target_size := match mutated with
                  | .arr xs => xs.length
                  | _ => 0
                .ok (true, emit_event ctx.config
                  ⟨.InplaceOptUsed, key, fname, target_size⟩ st)
          | _ => .ok (false, st)
    | _ => .ok (false, st)

/-- The body of visit(SetStatementNode) inside its try block: the
in-place attempt followed by the ordinary evaluate-then-assign path. -/
def set_statement_body (ctx : RenderContext) (key : String) (ptr : List String)
    (expr : ExpressionListNode) (pos : Nat) (st : RenderState) : Except RFail RenderState := do
  let (used, st) ← try_inplace_self_assignment ctx key ptr expr st
  if used then .ok (emit_event ctx.config ⟨.SetStatementEnd, key, "inplace", 0⟩ st)
  else do
    let (result, st) ← eval_expression_list ctx expr st
    match result with
    | some v => do
      let st ← set_ptr_checked ptr v pos st
      .ok (emit_event ctx.config ⟨.SetStatementEnd, key, "copy", 0⟩ st)
    | Option.none =>
      if ctx.config.graceful_errors then do
        let st ← set_ptr_checked ptr .null pos st
        .ok (emit_event ctx.config ⟨.SetStatementEnd, key, "null_graceful", 0⟩ st)
      else do
        let st ← throw_renderer_error ctx.config
          ("failed to evaluate expression for variable '" ++ key ++ "'") pos "" st
        .ok st

/-- Renderer::visit(const SetStatementNode&): converts the dotted key
to a json_pointer (replace_substring lives in utils.hpp, outside src/;
modelled from the spec: dots become slashes, so the reference tokens
are the dot-separated segments) and runs the body under the catch
blocks that, in graceful mode, assign null instead of propagating. -/
def visit_set_statement (ctx : RenderContext) (key : String) (expr : ExpressionListNode)
    (pos : Nat) (st : RenderState) : Except RFail RenderState :=
  let st := emit_event ctx.config ⟨.SetStatementStart, key, "", 0⟩ st
  let ptr : List String := split_on_dot key
  match set_statement_body ctx key ptr expr pos st with
  | .ok st => .ok st
  | .error (e, st) =>
    if ctx.config.graceful_errors then
      match jSetPtr st.additional_data ptr .null with
      | some ad =>
        .ok (emit_event ctx.config ⟨.SetStatementEnd, key, "exception_graceful", 0⟩
          { st with additional_data := ad })
      | Option.none => .error (⟨"json type_error", pos⟩, st)
    else .error (⟨"failed to set variable '" ++ key ++ "': " ++ e.message, pos⟩, st)

/-- The per-element loop of visit(const ForArrayStatementNode&): bind
the element, refresh the loop counters and flags, render the body, and
continue with the next element.  total is the element count of the
evaluated collection. -/
def for_array_go (render_body : RenderState → Except RFail RenderState) (value : String)
    (total : Nat) (pos : Nat) :
    List JVal → Nat → RenderState → Except RFail (Nat × RenderState)
  | [], index, st => .ok (index, st)
  | x :: xs, index, st => do
    let st ← set_key_checked value x pos st
    let st ← set_loop_field "index" (.int index) pos st
    let st ← set_loop_field "index1" (.int (index + 1)) pos st
    let st ← (if index = 1 then set_loop_field "is_first" (.bool false) pos st else .ok st)
    let st ← (if index = total - 1 then set_loop_field "is_last" (.bool true) pos st else .ok st)
    let st ← render_body st
    for_array_go render_body value total pos xs (index + 1) st

/-- The head of visit(const ForArrayStatementNode&) once the collection
has evaluated to a value: the array check, the ForLoopStart event, the
parent backup when a loop is already running, and the initial is_first
and is_last writes. -/
def for_array_prologue (ctx : RenderContext) (value : String) (r : JVal) (pos : Nat)
    (st : RenderState) : Except RFail RenderState := do
  let st ← (if !(jIsArray r) then
      throw_renderer_error ctx.config "object must be an array" pos "" st
    else .ok st)
  let st := emit_event ctx.config ⟨.ForLoopStart, value, "array", jSize r⟩ st
  let loop_obj := (jLookup st.additional_data ["loop"]).getD .null
  let st ← (if !(jempty loop_obj) then
      set_loop_field "parent" loop_obj pos st
    else .ok st)
  let st ← set_loop_field "is_first" (.bool true) pos st
  set_loop_field "is_last" (.bool (jSize r ≤ 1)) pos st

/-- The tail of visit(const ForArrayStatementNode&) after the element
loop: the loop variable is cleared, reading parent inserts a null
member when absent, and a non-empty parent is restored into the loop
slot (otherwise only the current_loop_data pointer is reset). -/
def for_array_epilogue (ctx : RenderContext) (value : String) (index : Nat) (pos : Nat)
    (st : RenderState) : Except RFail RenderState := do
  -- additional_data[value].clear()
  let st ← set_key_checked value (jclear ((jLookup st.additional_data [value]).getD .null))
    pos st
  -- reading (*current_loop_data)["parent"] inserts a null member when
  -- it is absent
  let parent_val := (jLookup st.additional_data ["loop", "parent"]).getD .null
  let st ← set_loop_field "parent" parent_val pos st
  let st ← (if !(jempty parent_val) then
      match jSetPtr st.additional_data ["loop"] parent_val with
      | some ad => .ok { st with additional_data := ad }
      | Option.none => .error (⟨"json type_error", pos⟩, st)
    else .ok st)  -- only the current_loop_data pointer is reset
  .ok (emit_event ctx.config ⟨.ForLoopEnd, value, "array", index⟩ st)

mutual

/-- Renderer statement dispatch for the modelled node kinds:
visit(TextNode), visit(ExpressionListNode), visit(BlockNode),
visit(ForArrayStatementNode) and visit(SetStatementNode). -/
def render_node (ctx : RenderContext) : AstNode → RenderState → Except RFail RenderState
  | .text pos length, st =>
    .ok { st with output := st.output ++ substr ctx.template_content pos length }
  | .expression_list el, st => do
    let (result, st) ← eval_expression_list ctx el st
    match result with
    | some v => .ok { st with output := st.output ++ print_data ctx.config v }
    | Option.none =>
      if ctx.config.graceful_errors ∧ el.length > 0 then
        .ok { st with output := st.output ++ substr ctx.template_content el.pos el.length }
      else .ok st
  | .block nodes, st => render_nodes ctx nodes st
  | .set_statement key expr pos, st => visit_set_statement ctx key expr pos st
  | .for_array value cond body pos, st => do
    let (result, st) ← eval_expression_list ctx cond st
    match result with
    | Option.none =>
      if ctx.config.graceful_errors then .ok st
      else do
        let st ← throw_renderer_error ctx.config "expression could not be evaluated" pos "" st
        -- unreachable: in strict mode the line above raised; the C++
        -- would dereference the null result next
        .error (⟨"null result dereference (unreachable)", pos⟩, st)
    | some r => do
      let st ← for_array_prologue ctx value r pos st
      let (index, st) ← for_array_go (fun s => render_nodes ctx body s) value (jSize r) pos
        (jElems r) 0 st
      for_array_epilogue ctx value index pos st

/-- Renderer::visit(const BlockNode&) without the break_rendering
check: the flag is only ever set by extends, which is outside the
modelled node set. -/
def render_nodes (ctx : RenderContext) : List AstNode → RenderState → Except RFail RenderState
  | [], st => .ok st
  | n :: rest, st => do
    let st ← render_node ctx n st
    render_nodes ctx rest st

end

/-! ## Specification-side companion definitions

These definitions follow the words of the spec (and of the claims);
the theorems below relate them to the code-side definitions above. -/

/-- The loop object claim C6 prescribes for the i-th body execution of
an n-element array loop: index = i, index1 = i + 1, is_first iff i = 0,
is_last iff i = n - 1. -/
def loop_fields (i n : Nat) : JVal :=
  .obj [ ("is_first", .bool (decide (i = 0))),
         ("is_last", .bool (decide (i = n - 1))),
         ("index", .int i),
         ("index1", .int (i + 1)) ]

/-- Specification-side loop runner (claim C6): the body runs once per
element, in array order, each time on a state whose additional data
binds the loop variable to the current element and the loop object to
loop_fields i n; the returned counter is the number of iterations
performed so far. -/
def spec_for_array_run (render_body : RenderState → Except RFail RenderState) (value : String)
    (n : Nat) : List JVal → Nat → RenderState → Except RFail (Nat × RenderState)
  | [], i, st => .ok (i, st)
  | x :: xs, i, st =>
    let ad := (jSetPtr ((jSetKey st.additional_data value x).getD .null) ["loop"]
      (loop_fields i n)).getD .null
    Except.bind (render_body { st with additional_data := ad }) (fun st2 =>
      spec_for_array_run render_body value n xs (i + 1) st2)

/-- The loop object found at the loop head: before iteration 0 the
prologue has set is_first and is_last only; before iteration i ≥ 1 the
previous iteration left exactly loop_fields (i-1) n. -/
def loop_entry_obj (i n : Nat) : JVal :=
  if i = 0 then .obj [("is_first", .bool true), ("is_last", .bool (decide (n ≤ 1)))]
  else loop_fields (i - 1) n

/-- The ordinary evaluate-then-assign path of visit(SetStatementNode),
written out on its own: evaluate the expression, assign the value (null
on a graceful failure), inside the catch blocks that in graceful mode
assign null instead of propagating.  Claim C5 proves that whenever an
in-place precondition fails the renderer behaves exactly like this
path. -/
def ordinary_set_path (ctx : RenderContext) (key : String) (ptr : List String)
    (expr : ExpressionListNode) (pos : Nat) (st : RenderState) : Except RFail RenderState :=
  match (do
      let (result, st) ← eval_expression_list ctx expr st
      match result with
      | some v => do
        let st ← set_ptr_checked ptr v pos st
        .ok (emit_event ctx.config ⟨.SetStatementEnd, key, "copy", 0⟩ st)
      | Option.none =>
        if ctx.config.graceful_errors then do
          let st ← set_ptr_checked ptr .null pos st
          .ok (emit_event ctx.config ⟨.SetStatementEnd, key, "null_graceful", 0⟩ st)
        else do
          let st ← throw_renderer_error ctx.config
            ("failed to evaluate expression for variable '" ++ key ++ "'") pos "" st
          .ok st : Except RFail RenderState) with
  | .ok st => .ok st
  | .error (e, st) =>
    if ctx.config.graceful_errors then
      match jSetPtr st.additional_data ptr .null with
      | some ad =>
        .ok (emit_event ctx.config ⟨.SetStatementEnd, key, "exception_graceful", 0⟩
          { st with additional_data := ad })
      | Option.none => .error (⟨"json type_error", pos⟩, st)
    else .error (⟨"failed to set variable '" ++ key ++ "': " ++ e.message, pos⟩, st)

/-- Synchronisation between an LRU node list and the key map: the map
is, up to order, exactly the node keys, without duplicates.  The order
of the node list is irrelevant to this predicate, so it applies equally
to the reversed list the eviction loops traverse. -/
def SyncWf (lru : List CacheEntry) (m : List String) : Prop :=
  m.Perm (lru.map CacheEntry.key) ∧ m.Nodup

/-- The callback-cache invariant of claim C10: the key map and the LRU
list stay in sync — no duplicate keys on either side, equal sizes,
every map entry's iterator points at the (unique) list node storing the
same key, every list node is indexed by the map — and, when a capacity
is configured, the cache holds at most that many entries. -/
structure CacheWf (max_entries : Nat) (st : CacheState) : Prop where
  map_nodup : st.cache_map.Nodup
  lru_keys_nodup : (st.lru_list.map CacheEntry.key).Nodup
  sizes_equal : st.cache_map.length = st.lru_list.length
  map_to_node : ∀ k ∈ st.cache_map, ∃ e ∈ st.lru_list, e.key = k
  node_to_map : ∀ e ∈ st.lru_list, e.key ∈ st.cache_map
  bounded : max_entries ≠ 0 → st.lru_list.length ≤ max_entries

/-! ## Concrete fixtures for the witnesses -/

/-- An in-place callback that increments an integer target. -/
def touch_icb : InPlaceCallbackFunction :=
  fun t _ => match t with | .int n => .int (n + 1) | _ => .null

/-- A function storage holding one user entry: touch/1, registered
with both a plain callback and the in-place variant. -/
def touch_storage : FunctionStorage :=
  [(("touch", 1), ⟨.Callback, some (fun _ => .null), some touch_icb⟩)]

/-- A render context over touch_storage with the default
configuration. -/
def touch_ctx : RenderContext :=
  ⟨{}, touch_storage, "", .null⟩

/-- A starting state whose additional data binds k to 5. -/
def touch_st : RenderState :=
  { additional_data := .obj [("loop", .null), ("k", .int 5)] }

/-- The template text of the concrete for-loop example. -/
def forloop_template : String :=
  "\x7b% for x in xs %\x7d\x7b\x7b loop.index1 \x7d\x7d:\x7b\x7b x \x7d\x7d;\x7b% endfor %\x7d"

/-- The body of the example loop as the parser produces it (parser.hpp
lives outside src/; modelled from the spec: an output tag becomes an
ExpressionListNode spanning the tag, literal text a TextNode, and a
dotted name a DataNode whose pointer tokens are the dot-separated
segments).  Positions index forloop_template. -/
def forloop_body : List AstNode :=
  [ .expression_list ⟨some (.data "loop.index1" ["loop", "index1"] 20), 17, 17⟩,
    .text 34 1,
    .expression_list ⟨some (.data "x" ["x"] 38), 35, 7⟩,
    .text 42 1 ]

/-- The example loop statement: for x in xs over forloop_body. -/
def forloop_node : AstNode :=
  .for_array "x" ⟨some (.data "xs" ["xs"] 12), 12, 2⟩ forloop_body 0

/-- A render context for the example: default configuration, no user
functions, the example template, and input data xs = [a, b, c]. -/
def forloop_ctx : RenderContext :=
  ⟨{}, [], forloop_template, .obj [("xs", .arr [.str "a", .str "b", .str "c"])]⟩

/-! # Theorems -/

/-! ## Monadic reduction helpers -/

@[simp] theorem ebind_ok {ε α β : Type} (a : α) (f : α → Except ε β) :
    (Except.ok a : Except ε α) >>= f = f a := rfl

@[simp] theorem ebind_error {ε α β : Type} (e : ε) (f : α → Except ε β) :
    (Except.error e : Except ε α) >>= f = Except.error e := rfl

@[simp] theorem ebind2_ok {ε α β : Type} (a : α) (f : α → Except ε β) :
    Except.bind (Except.ok a) f = f a := rfl

@[simp] theorem ebind2_error {ε α β : Type} (e : ε) (f : α → Except ε β) :
    Except.bind (Except.error e) f = Except.error e := rfl

@[simp] theorem epure_eq_ok {ε α : Type} (a : α) :
    (pure a : Except ε α) = Except.ok a := rfl

/-! ## Unfolding lemmas for the expression evaluator

The recursion over the nested expression AST does not yield usable
automatic equation lemmas, so the equations for the shapes the claims
exercise are stated and proved definitionally here. -/

theorem evalExpr_literal (ctx : RenderContext) (v : JVal) (st : RenderState) :
    evalExpr ctx (.literal v) st =
      .ok { st with data_eval_stack := some v :: st.data_eval_stack } := rfl

theorem evalExpr_data (ctx : RenderContext) (n : String) (p : List String) (pos : Nat)
    (st : RenderState) :
    evalExpr ctx (.data n p pos) st = visit_data ctx n p pos st := rfl

theorem evalExpr_and (ctx : RenderContext) (name : String) (a0 a1 : AstExpr)
    (rest : List AstExpr) (cb : Option CallbackFunction) (pos : Nat) (st : RenderState) :
    evalExpr ctx (.function name .And (a0 :: a1 :: rest) cb pos) st =
      Except.bind (evalExpr ctx a0 st) (fun st1 =>
        Except.bind (get_stack_args ctx.config 1 true pos st1) (fun p =>
          if truthy (p.1.headD Option.none) then
            Except.bind (evalExpr ctx a1 p.2) (fun st2 =>
              Except.bind (get_stack_args ctx.config 1 true pos st2) (fun q =>
                Except.ok (make_result (.bool (truthy (q.1.headD Option.none))) q.2)))
          else Except.ok (make_result (.bool false) p.2))) := rfl

theorem evalExpr_or (ctx : RenderContext) (name : String) (a0 a1 : AstExpr)
    (rest : List AstExpr) (cb : Option CallbackFunction) (pos : Nat) (st : RenderState) :
    evalExpr ctx (.function name .Or (a0 :: a1 :: rest) cb pos) st =
      Except.bind (evalExpr ctx a0 st) (fun st1 =>
        Except.bind (get_stack_args ctx.config 1 true pos st1) (fun p =>
          if truthy (p.1.headD Option.none) then Except.ok (make_result (.bool true) p.2)
          else
            Except.bind (evalExpr ctx a1 p.2) (fun st2 =>
              Except.bind (get_stack_args ctx.config 1 true pos st2) (fun q =>
                Except.ok (make_result (.bool (truthy (q.1.headD Option.none))) q.2))))) := rfl

theorem evalExpr_division (ctx : RenderContext) (name : String) (a0 a1 : AstExpr)
    (rest : List AstExpr) (cb : Option CallbackFunction) (pos : Nat) (st : RenderState) :
    evalExpr ctx (.function name .Division (a0 :: a1 :: rest) cb pos) st =
      op_try ctx.config "division" pos
        (Except.bind (evalExpr ctx a0 st) (fun st1 =>
          Except.bind (evalExpr ctx a1 st1) (fun st2 =>
            Except.bind (get_stack_args ctx.config 2 true pos st2) (fun p =>
              match jToFloat (((p.1.drop 1).headD Option.none).getD .null) with
              | Option.none => Except.error (⟨"type must be number", pos⟩, p.2)
              | some d =>
                Except.bind
                  (if d = 0 then throw_renderer_error ctx.config "division by zero" pos "" p.2
                   else Except.ok p.2) (fun st3 =>
                  match jToFloat ((p.1.headD Option.none).getD .null) with
                  | Option.none => Except.error (⟨"type must be number", pos⟩, st3)
                  | some numer => Except.ok (make_result (.float (numer / d)) st3)))))) := rfl

theorem evalExpr_callback_none (ctx : RenderContext) (name : String) (args : List AstExpr)
    (pos : Nat) (st : RenderState) :
    evalExpr ctx (.function name .Callback args Option.none pos) st =
      (if ctx.config.graceful_errors then
        .ok { st with data_eval_stack := Option.none :: st.data_eval_stack,
                      not_found_stack := (name, pos) :: st.not_found_stack }
      else
        Except.bind (throw_renderer_error ctx.config
          ("function '" ++ name ++ "' not found or has no callback") pos "" st)
          (fun st => Except.ok st)) := rfl

theorem evalExpr_callback_nil (ctx : RenderContext) (name : String) (f : CallbackFunction)
    (pos : Nat) (st : RenderState) :
    evalExpr ctx (.function name .Callback [] (some f) pos) st =
      .ok (make_result
        (match ctx.config.callback_wrapper with
         | some w => w name [] (f [])
         | Option.none => f [])
        { st with callback_log := st.callback_log ++ [name] }) := rfl

theorem evalExpr_none_op (ctx : RenderContext) (name : String) (args : List AstExpr)
    (cb : Option CallbackFunction) (pos : Nat) (st : RenderState) :
    evalExpr ctx (.function name .None args cb pos) st =
      (if ctx.config.graceful_errors then
        .ok { st with data_eval_stack := Option.none :: st.data_eval_stack,
                      not_found_stack := (name, pos) :: st.not_found_stack }
      else .ok st) := rfl

/-! ## Claim C3: find_function lookup order -/

/-- C3 counterexample: a storage holding only a variadic entry for f.
There is no exact entry for (f, 0); the variadic entry exists (it is
returned for one argument); yet find_function for zero arguments
returns an Operation.None entry, not the variadic entry — the claimed
variadic fallback at n = 0 does not happen. -/
theorem C3_counterexample :
    find_function [(("f", -1), ⟨.Callback, some (fun _ => .null), Option.none⟩)] "f" 0 =
        ⟨.None, Option.none, Option.none⟩ ∧
      (find_function [(("f", -1), ⟨.Callback, some (fun _ => .null), Option.none⟩)]
          "f" 1).operation = .Callback ∧
      List.find? (fun q => q.1 == ("f", (0 : Int)))
          [(("f", -1), (⟨.Callback, some (fun _ => .null), Option.none⟩ : FunctionData))] =
        Option.none :=
  ⟨rfl, rfl, rfl⟩

/-- C3 (amended): find_function returns the entry registered under the
exact key (name, n) when one exists; otherwise, when n is positive, the
variadic entry under (name, -1) when that exists; in every remaining
case — including every lookup with n = 0 or negative n — it returns an
entry with operation None.  The variadic fallback is applied only for
positive argument counts. -/
theorem C3_find_function_amended :
    (∀ (s : FunctionStorage) (name : String) (n : Int) (p : (String × Int) × FunctionData),
        s.find? (fun q => q.1 == (name, n)) = some p → find_function s name n = p.2) ∧
    (∀ (s : FunctionStorage) (name : String) (n : Int) (p : (String × Int) × FunctionData),
        s.find? (fun q => q.1 == (name, n)) = Option.none → 0 < n →
        s.find? (fun q => q.1 == (name, VARIADIC)) = some p → find_function s name n = p.2) ∧
    (∀ (s : FunctionStorage) (name : String) (n : Int),
        s.find? (fun q => q.1 == (name, n)) = Option.none → 0 < n →
        s.find? (fun q => q.1 == (name, VARIADIC)) = Option.none →
        find_function s name n = ⟨.None, Option.none, Option.none⟩) ∧
    (∀ (s : FunctionStorage) (name : String) (n : Int),
        s.find? (fun q => q.1 == (name, n)) = Option.none → ¬ 0 < n →
        find_function s name n = ⟨.None, Option.none, Option.none⟩) := by
  refine ⟨?_, ?_, ?_, ?_⟩
  · intro s name n p h
    simp [find_function, h]
  · intro s name n p hx hn hv
    simp [find_function, hx, hv, hn]
  · intro s name n hx hn hv
    simp [find_function, hx, hv, hn]
  · intro s name n hx hn
    simp [find_function, hx, hn]

/-- C3 amended-claim witness: concrete instantiation of the variadic
branch at two arguments. -/
theorem C3_find_function_amended_witness :
    find_function [(("f", -1), ⟨.Callback, Option.none, Option.none⟩)] "f" 2 =
      (⟨.Callback, Option.none, Option.none⟩ : FunctionData) := by
  have h := C3_find_function_amended.2.1
    [(("f", -1), (⟨.Callback, Option.none, Option.none⟩ : FunctionData))] "f" 2
    (("f", -1), ⟨.Callback, Option.none, Option.none⟩) (by rfl) (by decide) (by rfl)
  exact h

/-! ## Callback-cache synchronisation lemmas -/

theorem mem_eraseKey {m : List String} {k k2 : String} :
    k2 ∈ eraseKey m k ↔ k2 ∈ m ∧ k2 ≠ k := by
  simp [eraseKey, List.mem_filter, bne_iff_ne]

theorem eraseKey_subset {m : List String} {k k2 : String} (h : k2 ∈ eraseKey m k) : k2 ∈ m :=
  (mem_eraseKey.mp h).1

theorem eraseKey_nodup {m : List String} {k : String} (h : m.Nodup) : (eraseKey m k).Nodup :=
  h.filter _

theorem eraseKey_length_le (m : List String) (k : String) :
    (eraseKey m k).length ≤ m.length :=
  List.length_filter_le _ m

/-- Removing one key from a nodup map that is, up to order, k :: rest
leaves exactly rest. -/
theorem eraseKey_perm_of_cons {m rest : List String} {k : String}
    (hperm : m.Perm (k :: rest)) (hk : k ∉ rest) :
    (eraseKey m k).Perm rest := by
  have h1 : (eraseKey m k).Perm ((k :: rest).filter (fun x => x != k)) :=
    hperm.filter (fun x => x != k)
  have h2 : (k :: rest).filter (fun x => x != k) = rest := by
    rw [List.filter_cons]
    simp only [bne_self_eq_false]
    simp only [Bool.false_eq_true, if_false]
    exact List.filter_eq_self.mpr (fun a ha => by
      simp only [bne_iff_ne, ne_eq]
      exact fun hak => hk (hak ▸ ha))
  rw [h2] at h1
  exact h1

/-- Dropping the head node together with its map key preserves
synchronisation. -/
theorem sync_drop {e : CacheEntry} {rest : List CacheEntry} {m : List String}
    (h : SyncWf (e :: rest) m) : SyncWf rest (eraseKey m e.key) := by
  obtain ⟨hperm, hnd⟩ := h
  rw [List.map_cons] at hperm
  have hkeys : (e.key :: rest.map CacheEntry.key).Nodup := hperm.nodup hnd
  rw [List.nodup_cons] at hkeys
  exact ⟨eraseKey_perm_of_cons hperm hkeys.1, eraseKey_nodup hnd⟩

theorem sync_reverse {L : List CacheEntry} {m : List String} (h : SyncWf L m) :
    SyncWf L.reverse m := by
  obtain ⟨hperm, hnd⟩ := h
  refine ⟨hperm.trans ?_, hnd⟩
  rw [List.map_reverse]
  exact (List.reverse_perm _).symm

theorem remove_expired_rev_sync (now : Nat) :
    ∀ (L : List CacheEntry) (m : List String) (ev : Nat), SyncWf L m →
      SyncWf (remove_expired_rev now L m ev).1 (remove_expired_rev now L m ev).2.1
  | [], m, ev, h => by simpa [remove_expired_rev] using h
  | e :: rest, m, ev, h => by
    rw [remove_expired_rev]
    split
    · exact remove_expired_rev_sync now rest (eraseKey m e.key) (ev + 1) (sync_drop h)
    · simpa using h

theorem remove_expired_rev_length_le (now : Nat) :
    ∀ (L : List CacheEntry) (m : List String) (ev : Nat),
      (remove_expired_rev now L m ev).1.length ≤ L.length
  | [], m, ev => by simp [remove_expired_rev]
  | e :: rest, m, ev => by
    rw [remove_expired_rev]
    split
    · exact le_trans (remove_expired_rev_length_le now rest _ _) (Nat.le_succ _)
    · simp

theorem remove_expired_rev_map_subset (now : Nat) :
    ∀ (L : List CacheEntry) (m : List String) (ev : Nat) (k : String),
      k ∈ (remove_expired_rev now L m ev).2.1 → k ∈ m
  | [], m, ev, k => by simp [remove_expired_rev]
  | e :: rest, m, ev, k => by
    rw [remove_expired_rev]
    split
    · intro h
      exact eraseKey_subset (remove_expired_rev_map_subset now rest _ _ k h)
    · simp

/-- The drain loop stops at the first live tail entry: the head of its
result (the least recently used survivor) is live, when present. -/
theorem remove_expired_rev_head_live (now : Nat) :
    ∀ (L : List CacheEntry) (m : List String) (ev : Nat),
      (remove_expired_rev now L m ev).1 = [] ∨
        ∃ e es, (remove_expired_rev now L m ev).1 = e :: es ∧ now < e.expiry
  | [], m, ev => by simp [remove_expired_rev]
  | e :: rest, m, ev => by
    rw [remove_expired_rev]
    split
    · exact remove_expired_rev_head_live now rest _ _
    · rename_i hcond
      exact Or.inr ⟨e, rest, rfl, Nat.lt_of_not_le (fun hle => hcond hle)⟩

theorem evict_rev_sync (max : Nat) (hmax : max ≠ 0) :
    ∀ (L : List CacheEntry) (m : List String) (ev : Nat), SyncWf L m →
      SyncWf (evict_rev max L m ev).1 (evict_rev max L m ev).2.1 ∧
        (evict_rev max L m ev).2.1.length < max
  | [], m, ev, h => by
    have hlen : m.length = 0 := by
      have := h.1.length_eq
      simpa using this
    refine ⟨by simpa [evict_rev] using h, ?_⟩
    simp [evict_rev, hlen]
    omega
  | e :: rest, m, ev, h => by
    rw [evict_rev]
    split
    · exact evict_rev_sync max hmax rest _ _ (sync_drop h)
    · rename_i hcond
      exact ⟨by simpa using h, Nat.lt_of_not_le hcond⟩

theorem evict_rev_map_subset (max : Nat) :
    ∀ (L : List CacheEntry) (m : List String) (ev : Nat) (k : String),
      k ∈ (evict_rev max L m ev).2.1 → k ∈ m
  | [], m, ev, k => by simp [evict_rev]
  | e :: rest, m, ev, k => by
    rw [evict_rev]
    split
    · intro h
      exact eraseKey_subset (evict_rev_map_subset max rest _ _ k h)
    · simp

theorem evict_rev_length_le (max : Nat) :
    ∀ (L : List CacheEntry) (m : List String) (ev : Nat),
      (evict_rev max L m ev).1.length ≤ L.length
  | [], m, ev => by simp [evict_rev]
  | e :: rest, m, ev => by
    rw [evict_rev]
    split
    · exact le_trans (evict_rev_length_le max rest _ _) (Nat.le_succ _)
    · simp

theorem remove_expired_entries_sync (now : Nat) (st : CacheState)
    (h : SyncWf st.lru_list st.cache_map) :
    SyncWf (remove_expired_entries now st).lru_list (remove_expired_entries now st).cache_map := by
  unfold remove_expired_entries
  have h1 := remove_expired_rev_sync now st.lru_list.reverse st.cache_map st.evictions
    (sync_reverse h)
  exact sync_reverse h1

theorem remove_expired_entries_length_le (now : Nat) (st : CacheState) :
    (remove_expired_entries now st).lru_list.length ≤ st.lru_list.length := by
  unfold remove_expired_entries
  simpa using le_trans
    (by simpa using remove_expired_rev_length_le now st.lru_list.reverse st.cache_map st.evictions)
    (by simp)

/-- Key-list filtering commutes with taking keys. -/
theorem map_key_filter (k : String) :
    ∀ (L : List CacheEntry),
      (L.filter (fun n => n.key != k)).map CacheEntry.key =
        (L.map CacheEntry.key).filter (fun x => x != k)
  | [] => by simp
  | e :: rest => by
    by_cases h : e.key = k
    · simp [List.filter_cons, h, map_key_filter k rest]
    · simp [List.filter_cons, bne_iff_ne, h, map_key_filter k rest]

/-- A node lookup by key succeeds whenever the map names the key and
the structures are in sync. -/
theorem findNode_isSome_of_sync {L : List CacheEntry} {m : List String} {k : String}
    (h : SyncWf L m) (hk : k ∈ m) : ∃ e, findNode L k = some e ∧ e.key = k := by
  have hmem : k ∈ L.map CacheEntry.key := (h.1.mem_iff).mp hk
  obtain ⟨e, he, hek⟩ := List.mem_map.mp hmem
  have hsome : (L.find? (fun n => n.key == k)).isSome := by
    rw [List.find?_isSome]
    exact ⟨e, he, by simp [hek]⟩
  obtain ⟨f, hf⟩ := Option.isSome_iff_exists.mp hsome
  refine ⟨f, hf, ?_⟩
  have := List.find?_some hf
  simpa using this

/-- A nodup key list is, up to order, the key followed by the others. -/
theorem perm_cons_filter_ne_self {l : List String} {k : String} (hnd : l.Nodup) (hk : k ∈ l) :
    l.Perm (k :: l.filter (fun x => x != k)) := by
  have h1 : l.Perm (k :: l.erase k) := List.perm_cons_erase hk
  have h2 : l.erase k = l.filter (fun x => x != k) := by
    rw [hnd.erase_eq_filter]
  rwa [h2] at h1

/-- Taking keys commutes with filtering by a key predicate. -/
theorem map_key_filter_q (q : String → Bool) :
    ∀ (L : List CacheEntry),
      (L.filter (fun n => q n.key)).map CacheEntry.key =
        (L.map CacheEntry.key).filter q
  | [] => by simp
  | e :: rest => by
    by_cases h : q e.key
    · simp [List.filter_cons, h, map_key_filter_q q rest]
    · simp [List.filter_cons, h, map_key_filter_q q rest]

theorem evict_if_needed_props (max : Nat) (st : CacheState) (h : SyncWf st.lru_list st.cache_map) :
    SyncWf (evict_if_needed max st).lru_list (evict_if_needed max st).cache_map ∧
      (max ≠ 0 → (evict_if_needed max st).cache_map.length < max) ∧
      (∀ k ∈ (evict_if_needed max st).cache_map, k ∈ st.cache_map) ∧
      (evict_if_needed max st).lru_list.length ≤ st.lru_list.length := by
  unfold evict_if_needed
  split
  · rename_i h0
    exact ⟨h, fun hne => absurd h0 hne, fun k hk => hk, le_refl _⟩
  · rename_i h0
    have hs := evict_rev_sync max h0 st.lru_list.reverse st.cache_map st.evictions
      (sync_reverse h)
    refine ⟨sync_reverse hs.1, fun _ => hs.2, ?_, ?_⟩
    · intro k hk
      exact evict_rev_map_subset max st.lru_list.reverse st.cache_map st.evictions k (by simpa using hk)
    · simpa using le_trans
        (by simpa using evict_rev_length_le max st.lru_list.reverse st.cache_map st.evictions)
        (by simp)

/-- put keeps the list and the map in sync and never exceeds a
configured capacity the state already respects. -/
theorem put_sync (cfg : CallbackCacheConfig) (now : Nat) (name : String) (args : Arguments)
    (value : JVal) (st : CacheState) (h : SyncWf st.lru_list st.cache_map) :
    SyncWf (put cfg now name args value st).lru_list (put cfg now name args value st).cache_map ∧
      (cfg.max_entries ≠ 0 → st.lru_list.length ≤ cfg.max_entries →
        (put cfg now name args value st).lru_list.length ≤ cfg.max_entries) := by
  unfold put
  split
  · exact ⟨h, fun _ hb => hb⟩
  · have h1 := remove_expired_entries_sync now st h
    have hlen1 := remove_expired_entries_length_le now st
    set key := make_cache_key name args with hkeydef
    set st1 := remove_expired_entries now st with hst1
    by_cases hc : st1.cache_map.contains key
    · rw [if_pos hc]
      have hkm : key ∈ st1.cache_map := by simpa using hc
      obtain ⟨e, he, hek⟩ := findNode_isSome_of_sync h1 hkm
      rw [he]
      have hperm2 : st1.cache_map.Perm
          (key :: (st1.lru_list.map CacheEntry.key).filter (fun x => x != key)) := by
        have hknd : (st1.lru_list.map CacheEntry.key).Nodup := h1.1.nodup h1.2
        exact h1.1.trans (perm_cons_filter_ne_self hknd (h1.1.mem_iff.mp hkm))
      have hmapf : (st1.lru_list.filter (fun n => n.key != key)).map CacheEntry.key =
          (st1.lru_list.map CacheEntry.key).filter (fun x => x != key) :=
        map_key_filter_q (fun x => x != key) st1.lru_list
      constructor
      · refine ⟨?_, h1.2⟩
        simpa [hek, hmapf] using hperm2
      · intro hmax hbound
        have hlen2 : (st1.lru_list.filter (fun n => n.key != key)).length + 1 =
            st1.lru_list.length := by
          have := hperm2.length_eq
          have hlenmap := h1.1.length_eq
          simp only [List.length_map] at hlenmap
          simp only [List.length_cons] at this
          have hf := congrArg List.length hmapf
          simp only [List.length_map] at hf
          omega
        simp only [List.length_cons]
        omega
    · rw [if_neg hc]
      have hp := evict_if_needed_props cfg.max_entries st1 h1
      set st2 := evict_if_needed cfg.max_entries st1 with hst2
      have hknotin : key ∉ st2.cache_map := by
        intro hmem
        exact hc (by simpa using hp.2.2.1 key hmem)
      constructor
      · refine ⟨?_, ?_⟩
        · simpa using (hp.1.1.cons key)
        · exact List.nodup_cons.mpr ⟨hknotin, hp.1.2⟩
      · intro hmax hbound
        have hlt : st2.cache_map.length < cfg.max_entries := hp.2.1 hmax
        have hlensync := hp.1.1.length_eq
        simp only [List.length_map] at hlensync
        simp only [List.length_cons]
        omega

theorem invalidate_go_list (pfx : String) :
    ∀ (L : List CacheEntry) (m : List String) (c : Nat),
      (invalidate_go pfx L m c).1 = L.filter (fun e => !(pfx.isPrefixOf e.key))
  | [], m, c => by simp [invalidate_go]
  | e :: rest, m, c => by
    rw [invalidate_go]
    by_cases h : pfx.isPrefixOf e.key
    · simp [h, List.filter_cons, invalidate_go_list pfx rest (eraseKey m e.key) (c + 1)]
    · simp [h, List.filter_cons, invalidate_go_list pfx rest m c]

theorem invalidate_go_map (pfx : String) :
    ∀ (L : List CacheEntry) (m : List String) (c : Nat),
      (invalidate_go pfx L m c).2.1 =
        m.filter (fun k =>
          !(((L.filter (fun e => pfx.isPrefixOf e.key)).map CacheEntry.key).contains k))
  | [], m, c => by simp [invalidate_go]
  | e :: rest, m, c => by
    rw [invalidate_go]
    by_cases h : pfx.isPrefixOf e.key
    · rw [if_pos h]
      rw [invalidate_go_map pfx rest (eraseKey m e.key) (c + 1)]
      rw [show eraseKey m e.key = m.filter (fun x => x != e.key) from rfl]
      rw [List.filter_filter]
      refine List.filter_congr (fun k _ => ?_)
      simp [h, List.filter_cons, Bool.and_comm, bne]
    · rw [if_neg h]
      simp only [invalidate_go_map pfx rest m c, List.filter_cons, h, Bool.false_eq_true,
        if_false]

theorem invalidate_sync (name : String) (st : CacheState)
    (h : SyncWf st.lru_list st.cache_map) :
    SyncWf (invalidate name st).1.lru_list (invalidate name st).1.cache_map ∧
      (invalidate name st).1.lru_list.length ≤ st.lru_list.length := by
  unfold invalidate
  simp only [invalidate_go_list, invalidate_go_map]
  refine ⟨⟨?_, h.2.filter _⟩, List.length_filter_le _ _⟩
  have hperm := h.1.filter (fun k =>
    !(((st.lru_list.filter (fun e => (name ++ ":").isPrefixOf e.key)).map
        CacheEntry.key).contains k))
  have hmapf := map_key_filter_q (fun k => !((name ++ ":").isPrefixOf k)) st.lru_list
  have hcongr : (st.lru_list.map CacheEntry.key).filter (fun k =>
      !(((st.lru_list.filter (fun e => (name ++ ":").isPrefixOf e.key)).map
          CacheEntry.key).contains k)) =
      (st.lru_list.map CacheEntry.key).filter (fun k => !((name ++ ":").isPrefixOf k)) := by
    refine List.filter_congr (fun k hk => ?_)
    by_cases hp : (name ++ ":").isPrefixOf k
    · obtain ⟨e, he, hek⟩ := List.mem_map.mp hk
      have hmem : k ∈ (st.lru_list.filter
          (fun e => (name ++ ":").isPrefixOf e.key)).map CacheEntry.key :=
        List.mem_map.mpr ⟨e, List.mem_filter.mpr ⟨he, by simp [hek, hp]⟩, hek⟩
      have hc : ((st.lru_list.filter
          (fun e => (name ++ ":").isPrefixOf e.key)).map CacheEntry.key).contains k = true :=
        List.elem_iff.mpr hmem
      rw [hc, hp]
    · have hnot : k ∉ (st.lru_list.filter
          (fun e => (name ++ ":").isPrefixOf e.key)).map CacheEntry.key := by
        intro hcontra
        obtain ⟨f, hf, hfk⟩ := List.mem_map.mp hcontra
        exact hp (by simpa [hfk] using (List.mem_filter.mp hf).2)
      have hc : ((st.lru_list.filter
          (fun e => (name ++ ":").isPrefixOf e.key)).map CacheEntry.key).contains k = false :=
        Bool.eq_false_iff.mpr (fun habs => hnot (List.elem_iff.mp habs))
      rw [hc, Bool.eq_false_iff.mpr hp]
  rw [hmapf, ← hcongr]
  exact hperm

/-- The claim-level invariant is synchronisation plus the capacity
bound. -/
theorem cacheWf_iff (m : Nat) (st : CacheState) :
    CacheWf m st ↔ SyncWf st.lru_list st.cache_map ∧ (m ≠ 0 → st.lru_list.length ≤ m) := by
  constructor
  · intro h
    refine ⟨⟨?_, h.map_nodup⟩, h.bounded⟩
    apply List.perm_of_nodup_nodup_toFinset_eq h.map_nodup h.lru_keys_nodup
    ext k
    simp only [List.mem_toFinset]
    constructor
    · intro hk
      obtain ⟨e, he, hek⟩ := h.map_to_node k hk
      exact List.mem_map.mpr ⟨e, he, hek⟩
    · intro hk
      obtain ⟨e, he, hek⟩ := List.mem_map.mp hk
      exact hek ▸ h.node_to_map e he
  · rintro ⟨⟨hperm, hnd⟩, hb⟩
    refine ⟨hnd, hperm.nodup hnd, by simpa using hperm.length_eq, ?_, ?_, hb⟩
    · intro k hk
      obtain ⟨e, he, hek⟩ := List.mem_map.mp (hperm.mem_iff.mp hk)
      exact ⟨e, he, hek⟩
    · intro e he
      exact hperm.mem_iff.mpr (List.mem_map.mpr ⟨e, he, rfl⟩)

/-- try_get never touches the stored entries, their order, or the
eviction counter. -/
theorem try_get_state_eq (now : Nat) (name : String) (args : Arguments) (st : CacheState) :
    ((try_get now name args st).2.2).cache_map = st.cache_map ∧
      ((try_get now name args st).2.2).lru_list = st.lru_list ∧
      ((try_get now name args st).2.2).evictions = st.evictions := by
  by_cases hc : make_cache_key name args ∈ st.cache_map
  · cases hfind : findNode st.lru_list (make_cache_key name args) with
    | none => simp [try_get, hc, hfind]
    | some e =>
      by_cases hexp : now < e.expiry
      · simp [try_get, hc, hfind, hexp]
      · simp [try_get, hc, hfind, hexp]
  · simp [try_get, hc]

/-! ## Claim C10: cache invariants -/

/-- C10: with a configured positive capacity m, each cache operation —
put, try_get, invalidate, clear — preserves the invariant that the
cache holds at most m entries and that the key map and the LRU list are
in sync: equal sizes, and each map entry's iterator pointing at the
list node that stores the same key (the invariant is stated with the
auxiliary no-duplicate facts needed to make it inductive). -/
theorem C10_cache_invariants :
    ∀ (cfg : CallbackCacheConfig) (now : Nat) (fname : String) (args : Arguments)
      (value : JVal) (iname : String) (st : CacheState),
      0 < cfg.max_entries → CacheWf cfg.max_entries st →
      CacheWf cfg.max_entries (put cfg now fname args value st) ∧
        CacheWf cfg.max_entries (try_get now fname args st).2.2 ∧
        CacheWf cfg.max_entries (invalidate iname st).1 ∧
        CacheWf cfg.max_entries st.clear := by
  intro cfg now fname args value iname st hpos hwf
  have h0 := (cacheWf_iff _ st).mp hwf
  refine ⟨?_, ?_, ?_, ?_⟩
  · have hp := put_sync cfg now fname args value st h0.1
    exact (cacheWf_iff _ _).mpr ⟨hp.1, fun hm => hp.2 hm (h0.2 hm)⟩
  · have ht := try_get_state_eq now fname args st
    refine (cacheWf_iff _ _).mpr ⟨?_, ?_⟩
    · rw [ht.2.1, ht.1]
      exact h0.1
    · intro hm
      rw [ht.2.1]
      exact h0.2 hm
  · have hi := invalidate_sync iname st h0.1
    exact (cacheWf_iff _ _).mpr ⟨hi.1, fun hm => le_trans hi.2 (h0.2 hm)⟩
  · refine (cacheWf_iff _ _).mpr ⟨⟨?_, ?_⟩, ?_⟩ <;> simp [CacheState.clear]

/-- C10 witness: the invariant theorem applied to a concrete two-entry
configuration and the empty cache. -/
theorem C10_cache_invariants_witness :
    CacheWf 2 (put { max_entries := 2 } 0 "f" [] (.int 1) ⟨[], [], 0, 0, 0⟩) ∧
      CacheWf 2 (try_get 0 "f" [] ⟨[], [], 0, 0, 0⟩).2.2 ∧
      CacheWf 2 (invalidate "g" ⟨[], [], 0, 0, 0⟩).1 ∧
      CacheWf 2 (CacheState.clear ⟨[], [], 0, 0, 0⟩) := by
  have hwf : CacheWf 2 ⟨[], [], 0, 0, 0⟩ := by
    refine ⟨?_, ?_, ?_, ?_, ?_, ?_⟩ <;> simp
  exact C10_cache_invariants { max_entries := 2 } 0 "f" [] (.int 1) "g" ⟨[], [], 0, 0, 0⟩
    (by decide) hwf

/-! ## Claim C7: null results and cache_void_callbacks -/

/-- A lookup misses when the cache holds no live entry under the key. -/
theorem try_get_fst_false (now2 : Nat) (name : String) (args : Arguments) (st : CacheState)
    (h : ∀ e ∈ st.lru_list, e.key = make_cache_key name args → e.expiry ≤ now2) :
    (try_get now2 name args st).1 = false := by
  by_cases hc : make_cache_key name args ∈ st.cache_map
  · cases hfind : findNode st.lru_list (make_cache_key name args) with
    | none => simp [try_get, hc, hfind]
    | some e =>
      have hmem : e ∈ st.lru_list := List.mem_of_find?_eq_some hfind
      have hkey : e.key = make_cache_key name args := by
        have := List.find?_some hfind
        simpa using this
      have hexp := h e hmem hkey
      simp [try_get, hc, hfind, Nat.not_lt.mpr hexp]
  · simp [try_get, hc]

/-- A stored value is found while live: after put, a lookup before the
expiry hits and returns the stored value. -/
theorem try_get_after_put (cfg : CallbackCacheConfig) (now now2 : Nat) (name : String)
    (args : Arguments) (value : JVal) (st : CacheState)
    (hsync : SyncWf st.lru_list st.cache_map)
    (hstore : (!cfg.cache_void_callbacks && jIsNull value) = false)
    (hlive : now2 < now + cfg.ttl) :
    (try_get now2 name args (put cfg now name args value st)).1 = true ∧
      (try_get now2 name args (put cfg now name args value st)).2.1 = some value := by
  unfold put
  simp only [hstore, Bool.false_eq_true, if_false]
  have h1 := remove_expired_entries_sync now st hsync
  set key := make_cache_key name args with hkeydef
  set st1 := remove_expired_entries now st with hst1
  by_cases hc : st1.cache_map.contains key
  · rw [if_pos hc]
    obtain ⟨e, he, hek⟩ := findNode_isSome_of_sync h1 (by simpa using hc)
    rw [he]
    have hfind : findNode ({ e with value := value, expiry := now + cfg.ttl } ::
        st1.lru_list.filter (fun n => n.key != key)) key =
        some { e with value := value, expiry := now + cfg.ttl } := by
      simp [findNode, List.find?, hek]
    have hm : make_cache_key name args ∈ st1.cache_map := by simpa using hc
    constructor <;> simp [try_get, hm, hfind, hlive]
  · rw [if_neg hc]
    have hfind : findNode (⟨value, now + cfg.ttl, key⟩ ::
        (evict_if_needed cfg.max_entries st1).lru_list) key = some ⟨value, now + cfg.ttl, key⟩ := by
      simp [findNode, List.find?]
    constructor <;> simp [try_get, hfind, hlive, List.mem_cons_self]

/-- C7: with cache_void_callbacks unset a null result leaves the cache
untouched, and lookups keep missing as long as no live entry for the
key exists; with the flag set (or a non-null value) the result is
stored like any other value and found live by a lookup before the
expiry. -/
theorem C7_void_results :
    (∀ (cfg : CallbackCacheConfig) (now : Nat) (name : String) (args : Arguments)
        (st : CacheState), cfg.cache_void_callbacks = false →
        put cfg now name args .null st = st) ∧
      (∀ (cfg : CallbackCacheConfig) (now now2 : Nat) (name : String) (args : Arguments)
          (st : CacheState), cfg.cache_void_callbacks = false →
          (∀ e ∈ st.lru_list, e.key = make_cache_key name args → e.expiry ≤ now2) →
          (try_get now2 name args (put cfg now name args .null st)).1 = false) ∧
      (∀ (cfg : CallbackCacheConfig) (now now2 : Nat) (name : String) (args : Arguments)
          (value : JVal) (st : CacheState), SyncWf st.lru_list st.cache_map →
          (!cfg.cache_void_callbacks && jIsNull value) = false → now2 < now + cfg.ttl →
          (try_get now2 name args (put cfg now name args value st)).1 = true ∧
            (try_get now2 name args (put cfg now name args value st)).2.1 = some value) := by
  refine ⟨?_, ?_, ?_⟩
  · intro cfg now name args st hflag
    unfold put
    simp [hflag, jIsNull]
  · intro cfg now now2 name args st hflag hdead
    have hid : put cfg now name args .null st = st := by
      unfold put
      simp [hflag, jIsNull]
    rw [hid]
    exact try_get_fst_false now2 name args st hdead
  · intro cfg now now2 name args value st hsync hstore hlive
    exact try_get_after_put cfg now now2 name args value st hsync hstore hlive

/-- C7 witness: a void put into a concrete cache with the flag unset
leaves it unchanged and keeps missing; with the flag set the null value
is stored and found. -/
theorem C7_void_results_witness :
    put { cache_void_callbacks := false } 0 "f" [] .null ⟨[], [], 0, 0, 0⟩ = ⟨[], [], 0, 0, 0⟩ ∧
      (try_get 1 "f" [] (put { cache_void_callbacks := false } 0 "f" [] .null
        ⟨[], [], 0, 0, 0⟩)).1 = false ∧
      (try_get 1 "f" [] (put { cache_void_callbacks := true } 0 "f" [] .null
        ⟨[], [], 0, 0, 0⟩)).1 = true ∧
      (try_get 1 "f" [] (put { cache_void_callbacks := true } 0 "f" [] .null
        ⟨[], [], 0, 0, 0⟩)).2.1 = some .null := by
  refine ⟨?_, ?_, ?_, ?_⟩
  · exact C7_void_results.1 { cache_void_callbacks := false } 0 "f" [] ⟨[], [], 0, 0, 0⟩ rfl
  · exact C7_void_results.2.1 { cache_void_callbacks := false } 0 1 "f" [] ⟨[], [], 0, 0, 0⟩
      rfl (by simp)
  · exact (C7_void_results.2.2 { cache_void_callbacks := true } 0 1 "f" [] .null
      ⟨[], [], 0, 0, 0⟩ (by constructor <;> simp) (by rfl) (by decide)).1
  · exact (C7_void_results.2.2 { cache_void_callbacks := true } 0 1 "f" [] .null
      ⟨[], [], 0, 0, 0⟩ (by constructor <;> simp) (by rfl) (by decide)).2

/-! ## Claim C8: try_get is read-only; put drains expired tail first -/

/-- The capacity loop does nothing when already under capacity. -/
theorem evict_rev_id (max : Nat) (L : List CacheEntry) (m : List String) (ev : Nat)
    (h : ¬ max ≤ m.length) : evict_rev max L m ev = (L, m, ev) := by
  cases L with
  | nil => simp [evict_rev]
  | cons e rest => simp [evict_rev, h]

/-- C8: a try_get call — hit or miss — leaves the stored entries, their
recency order and the eviction count unchanged (in particular a hit
does not move the entry to the front); on put the expired tail entries
are drained before any capacity check, so that when the drain alone
brings the cache under capacity no further entry is evicted and the new
entry is simply pushed at the front; and the drain stops at the first
live least-recently-used entry. -/
theorem C8_try_get_readonly_and_put_order :
    (∀ (now : Nat) (name : String) (args : Arguments) (st : CacheState),
        ((try_get now name args st).2.2).cache_map = st.cache_map ∧
          ((try_get now name args st).2.2).lru_list = st.lru_list ∧
          ((try_get now name args st).2.2).evictions = st.evictions) ∧
      (∀ (cfg : CallbackCacheConfig) (now : Nat) (name : String) (args : Arguments)
          (value : JVal) (st : CacheState),
          (!cfg.cache_void_callbacks && jIsNull value) = false →
          ¬ (remove_expired_entries now st).cache_map.contains (make_cache_key name args) →
          (cfg.max_entries = 0 ∨
            (remove_expired_entries now st).cache_map.length < cfg.max_entries) →
          put cfg now name args value st =
            { remove_expired_entries now st with
                lru_list := ⟨value, now + cfg.ttl, make_cache_key name args⟩ ::
                  (remove_expired_entries now st).lru_list,
                cache_map := make_cache_key name args ::
                  (remove_expired_entries now st).cache_map }) ∧
      (∀ (now : Nat) (st : CacheState),
          (remove_expired_entries now st).lru_list.getLast? = Option.none ∨
            ∃ e, (remove_expired_entries now st).lru_list.getLast? = some e ∧
              now < e.expiry) := by
  refine ⟨try_get_state_eq, ?_, ?_⟩
  · intro cfg now name args value st hstore hnc hcap
    unfold put
    simp only [hstore, Bool.false_eq_true, if_false]
    rw [if_neg hnc]
    have hev : evict_if_needed cfg.max_entries (remove_expired_entries now st) =
        remove_expired_entries now st := by
      unfold evict_if_needed
      rcases hcap with h0 | hlt
      · simp [h0]
      · rw [if_neg (by omega)]
        rw [evict_rev_id _ _ _ _ (Nat.not_le.mpr hlt)]
        simp
    rw [hev]
  · intro now st
    unfold remove_expired_entries
    have h := remove_expired_rev_head_live now st.lru_list.reverse st.cache_map st.evictions
    rcases h with h | ⟨e, es, heq, hlive⟩
    · left
      simp [h]
    · right
      exact ⟨e, by simp [heq], hlive⟩

/-- C8 witness: concrete instantiation — a lookup on a one-entry cache
leaves it unchanged, and a put into a cache whose single tail entry has
expired drains it without evicting the live capacity. -/
theorem C8_try_get_readonly_and_put_order_witness :
    ((try_get 1 "f" [] ⟨["f:"], [⟨.int 7, 9, "f:"⟩], 0, 0, 0⟩).2.2).cache_map = ["f:"] ∧
      put { ttl := 5, max_entries := 2 } 10 "g" [] (.int 1)
          ⟨["f:"], [⟨.int 7, 9, "f:"⟩], 0, 0, 0⟩ =
        { cache_map := ["g:"], lru_list := [⟨.int 1, 15, "g:"⟩],
          hits := 0, misses := 0, evictions := 1 } := by
  constructor
  · exact (C8_try_get_readonly_and_put_order.1 1 "f" [] _).1
  · have h := C8_try_get_readonly_and_put_order.2.1 { ttl := 5, max_entries := 2 } 10 "g" []
      (.int 1) ⟨["f:"], [⟨.int 7, 9, "f:"⟩], 0, 0, 0⟩ (by rfl) (by decide)
      (by right; decide)
    rw [h]
    rfl

/-! ## Stack-pop helper lemmas -/

theorem pop_arg_loop_zero (cfg : RenderConfig) (tnf : Bool) (pos : Nat) (acc : Arguments)
    (st : RenderState) : pop_arg_loop cfg tnf pos 0 acc st = .ok (acc, st) := by
  rw [pop_arg_loop]

theorem pop_arg_loop_some (cfg : RenderConfig) (tnf : Bool) (pos n : Nat) (acc : Arguments)
    (st : RenderState) (v : JVal) (tail : List (Option JVal))
    (h : st.data_eval_stack = some v :: tail) :
    pop_arg_loop cfg tnf pos (n + 1) acc st =
      pop_arg_loop cfg tnf pos n (some v :: acc) { st with data_eval_stack := tail } := by
  rw [pop_arg_loop, h]

theorem get_stack_args_one (cfg : RenderConfig) (tnf : Bool) (pos : Nat) (st : RenderState)
    (v : JVal) (tail : List (Option JVal)) (h : st.data_eval_stack = some v :: tail) :
    get_stack_args cfg 1 tnf pos st = .ok ([some v], { st with data_eval_stack := tail }) := by
  have hlen : ¬ st.data_eval_stack.length < 1 := by rw [h]; simp
  unfold get_stack_args
  rw [if_neg hlen]
  simp only [ebind_ok, ebind2_ok]
  rw [show (1 : Nat) = 0 + 1 from rfl, pop_arg_loop_some cfg tnf pos 0 [] st v tail h,
    pop_arg_loop_zero]

theorem get_stack_args_two (cfg : RenderConfig) (tnf : Bool) (pos : Nat) (st : RenderState)
    (v0 v1 : JVal) (tail : List (Option JVal))
    (h : st.data_eval_stack = some v1 :: some v0 :: tail) :
    get_stack_args cfg 2 tnf pos st =
      .ok ([some v0, some v1], { st with data_eval_stack := tail }) := by
  have hlen : ¬ st.data_eval_stack.length < 2 := by rw [h]; simp
  unfold get_stack_args
  rw [if_neg hlen]
  simp only [ebind_ok, ebind2_ok]
  rw [show (2 : Nat) = 1 + 1 from rfl, pop_arg_loop_some cfg tnf pos 1 [] st v1 (some v0 :: tail) h,
    show (1 : Nat) = 0 + 1 from rfl,
    pop_arg_loop_some cfg tnf pos 0 [some v1] { st with data_eval_stack := some v0 :: tail } v0
      tail rfl,
    pop_arg_loop_zero]

/-! ## Claim C9: variable-reference resolution order -/

/-- C9: a Data node resolves against additional data first, then the
input data; failing those, a registered zero-argument callback is
invoked (through the wrapper when one is configured) and its result
pushed; only when all three fail is the null sentinel pushed together
with a not-found record. -/
theorem C9_data_resolution :
    (∀ (ctx : RenderContext) (name : String) (ptr : List String) (pos : Nat)
        (st : RenderState) (v : JVal), jLookup st.additional_data ptr = some v →
        evalExpr ctx (.data name ptr pos) st =
          .ok { st with data_eval_stack := some v :: st.data_eval_stack }) ∧
      (∀ (ctx : RenderContext) (name : String) (ptr : List String) (pos : Nat)
          (st : RenderState) (v : JVal), jLookup st.additional_data ptr = Option.none →
          jLookup ctx.data_input ptr = some v →
          evalExpr ctx (.data name ptr pos) st =
            .ok { st with data_eval_stack := some v :: st.data_eval_stack }) ∧
      (∀ (ctx : RenderContext) (name : String) (ptr : List String) (pos : Nat)
          (st : RenderState) (f : CallbackFunction),
          jLookup st.additional_data ptr = Option.none →
          jLookup ctx.data_input ptr = Option.none →
          (find_function ctx.function_storage name 0).operation = .Callback →
          (find_function ctx.function_storage name 0).callback = some f →
          evalExpr ctx (.data name ptr pos) st =
            .ok (make_result
              (match ctx.config.callback_wrapper with
               | some w => w name [] (f [])
               | Option.none => f [])
              { st with callback_log := st.callback_log ++ [name] })) ∧
      (∀ (ctx : RenderContext) (name : String) (ptr : List String) (pos : Nat)
          (st : RenderState), jLookup st.additional_data ptr = Option.none →
          jLookup ctx.data_input ptr = Option.none →
          (find_function ctx.function_storage name 0).operation ≠ .Callback →
          evalExpr ctx (.data name ptr pos) st =
            .ok { st with data_eval_stack := Option.none :: st.data_eval_stack,
                          not_found_stack := (name, pos) :: st.not_found_stack }) := by
  refine ⟨?_, ?_, ?_, ?_⟩
  · intro ctx name ptr pos st v h
    rw [evalExpr_data]
    simp [visit_data, h]
  · intro ctx name ptr pos st v h1 h2
    rw [evalExpr_data]
    simp [visit_data, h1, h2]
  · intro ctx name ptr pos st f h1 h2 hop hcb
    rw [evalExpr_data]
    simp only [visit_data, h1, h2, hop, if_true, hcb]
  · intro ctx name ptr pos st h1 h2 hop
    rw [evalExpr_data]
    simp only [visit_data, h1, h2]
    rw [if_neg hop]

/-- C9 witness: the first and last resolution stages at concrete
inputs — the loop member found in additional data, and an unknown name
becoming a null sentinel plus a not-found record. -/
theorem C9_data_resolution_witness :
    evalExpr { config := {}, function_storage := [] } (.data "loop" ["loop"] 0) {} =
        .ok { data_eval_stack := [some .null] } ∧
      evalExpr { config := {}, function_storage := [] } (.data "x" ["x"] 3) {} =
        .ok { data_eval_stack := [Option.none], not_found_stack := [("x", 3)] } := by
  constructor
  · exact C9_data_resolution.1 { config := {}, function_storage := [] } "loop" ["loop"] 0 {}
      .null (by rfl)
  · exact C9_data_resolution.2.2.2 { config := {}, function_storage := [] } "x" ["x"] 3 {}
      (by rfl) (by rfl) (by decide)

/-! ## Claim C1: and/or operand evaluation -/

/-- C1 counterexample: with a false first operand, evaluating an `and`
node whose second operand is a callback invocation produces the result
without ever invoking the callback — the final state's callback_log is
empty — refuting that the second operand is always fully evaluated.
The companion conjunct shows the same probe callback is invoked (and
logged) when the first operand is truthy, so the emptiness of the log
is meaningful. -/
theorem C1_counterexample :
    evalExpr { config := {}, function_storage := [] }
        (.function "and" .And [.literal (.bool false),
          .function "probe" .Callback [] (some (fun _ => .str "evaluated")) 0] Option.none 0)
        {} =
      .ok { data_eval_stack := [some (.bool false)], callback_log := [] } ∧
    evalExpr { config := {}, function_storage := [] }
        (.function "and" .And [.literal (.bool true),
          .function "probe" .Callback [] (some (fun _ => .str "evaluated")) 0] Option.none 0)
        {} =
      .ok { data_eval_stack := [some (.bool true)], callback_log := ["probe"] } :=
  ⟨rfl, rfl⟩

/-- C1 (amended): `and` and `or` short-circuit.  For `and`, when the
first operand evaluates to a falsy value the result is false and the
second operand is not evaluated at all: the final state is obtained
from the first operand's evaluation alone.  When the first operand is
truthy, the second operand is evaluated and the result is its
truthiness — the conjunction of the two truthinesses.  Dually for
`or`.  (Side effects of callbacks in the second operand therefore occur
exactly when the first operand does not already decide the result.) -/
theorem C1_and_or_short_circuit :
    (∀ (ctx : RenderContext) (name : String) (a0 a1 : AstExpr) (rest : List AstExpr)
        (cb : Option CallbackFunction) (pos : Nat) (st st0 : RenderState) (v0 : JVal)
        (tail : List (Option JVal)),
        evalExpr ctx a0 st = .ok st0 → st0.data_eval_stack = some v0 :: tail →
        truthy (some v0) = false →
        evalExpr ctx (.function name .And (a0 :: a1 :: rest) cb pos) st =
          .ok { st0 with data_eval_stack := some (.bool false) :: tail }) ∧
      (∀ (ctx : RenderContext) (name : String) (a0 a1 : AstExpr) (rest : List AstExpr)
          (cb : Option CallbackFunction) (pos : Nat) (st st0 st1 : RenderState) (v0 v1 : JVal)
          (tail tail1 : List (Option JVal)),
          evalExpr ctx a0 st = .ok st0 → st0.data_eval_stack = some v0 :: tail →
          truthy (some v0) = true →
          evalExpr ctx a1 { st0 with data_eval_stack := tail } = .ok st1 →
          st1.data_eval_stack = some v1 :: tail1 →
          evalExpr ctx (.function name .And (a0 :: a1 :: rest) cb pos) st =
            .ok { st1 with data_eval_stack := some (.bool (truthy (some v1))) :: tail1 }) ∧
      (∀ (ctx : RenderContext) (name : String) (a0 a1 : AstExpr) (rest : List AstExpr)
          (cb : Option CallbackFunction) (pos : Nat) (st st0 : RenderState) (v0 : JVal)
          (tail : List (Option JVal)),
          evalExpr ctx a0 st = .ok st0 → st0.data_eval_stack = some v0 :: tail →
          truthy (some v0) = true →
          evalExpr ctx (.function name .Or (a0 :: a1 :: rest) cb pos) st =
            .ok { st0 with data_eval_stack := some (.bool true) :: tail }) ∧
      (∀ (ctx : RenderContext) (name : String) (a0 a1 : AstExpr) (rest : List AstExpr)
          (cb : Option CallbackFunction) (pos : Nat) (st st0 st1 : RenderState) (v0 v1 : JVal)
          (tail tail1 : List (Option JVal)),
          evalExpr ctx a0 st = .ok st0 → st0.data_eval_stack = some v0 :: tail →
          truthy (some v0) = false →
          evalExpr ctx a1 { st0 with data_eval_stack := tail } = .ok st1 →
          st1.data_eval_stack = some v1 :: tail1 →
          evalExpr ctx (.function name .Or (a0 :: a1 :: rest) cb pos) st =
            .ok { st1 with data_eval_stack := some (.bool (truthy (some v1))) :: tail1 }) := by
  refine ⟨?_, ?_, ?_, ?_⟩
  · intro ctx name a0 a1 rest cb pos st st0 v0 tail h0 hstk hfalse
    rw [evalExpr_and, h0]
    simp only [ebind2_ok]
    rw [get_stack_args_one ctx.config true pos st0 v0 tail hstk]
    simp [hfalse, make_result]
  · intro ctx name a0 a1 rest cb pos st st0 st1 v0 v1 tail tail1 h0 hstk htrue h1 hstk1
    rw [evalExpr_and, h0]
    simp only [ebind2_ok]
    rw [get_stack_args_one ctx.config true pos st0 v0 tail hstk]
    simp only [ebind2_ok, List.headD_cons, htrue, if_true]
    rw [h1]
    simp only [ebind2_ok]
    rw [get_stack_args_one ctx.config true pos st1 v1 tail1 hstk1]
    simp [make_result]
  · intro ctx name a0 a1 rest cb pos st st0 v0 tail h0 hstk htrue
    rw [evalExpr_or, h0]
    simp only [ebind2_ok]
    rw [get_stack_args_one ctx.config true pos st0 v0 tail hstk]
    simp [htrue, make_result]
  · intro ctx name a0 a1 rest cb pos st st0 st1 v0 v1 tail tail1 h0 hstk hfalse h1 hstk1
    rw [evalExpr_or, h0]
    simp only [ebind2_ok]
    rw [get_stack_args_one ctx.config true pos st0 v0 tail hstk]
    simp only [ebind2_ok, List.headD_cons, hfalse, Bool.false_eq_true, if_false]
    rw [h1]
    simp only [ebind2_ok]
    rw [get_stack_args_one ctx.config true pos st1 v1 tail1 hstk1]
    simp [make_result]

/-- C1 amended-claim witness: the short-circuit theorem applied to the
concrete probe from the counterexample. -/
theorem C1_and_or_short_circuit_witness :
    evalExpr { config := {}, function_storage := [] }
        (.function "and" .And [.literal (.bool false),
          .function "probe" .Callback [] (some (fun _ => .str "evaluated")) 0] Option.none 0)
        {} =
      .ok { data_eval_stack := [some (.bool false)], callback_log := [] } := by
  have h := C1_and_or_short_circuit.1 { config := {}, function_storage := [] } "and"
    (.literal (.bool false))
    (.function "probe" .Callback [] (some (fun _ => .str "evaluated")) 0) [] Option.none 0
    {} { data_eval_stack := [some (.bool false)] } (.bool false) [] (by rfl) (by rfl) (by rfl)
  exact h

/-! ## Claim C2: division by zero and float results -/

/-- C2 counterexample: in graceful-errors mode, evaluating 1 / 0 does
not abort the render.  The evaluation returns normally (isOk), the
division-by-zero error is merely recorded, and a float result is pushed
so rendering continues — refuting that division by zero raises a
RenderError aborting the render in both modes. -/
theorem C2_counterexample :
    (evalExpr { config := { graceful_errors := true }, function_storage := [] }
        (.function "/" .Division [.literal (.int 1), .literal (.int 0)] Option.none 5)
        {}).isOk = true ∧
      errors_of (evalExpr { config := { graceful_errors := true }, function_storage := [] }
        (.function "/" .Division [.literal (.int 1), .literal (.int 0)] Option.none 5) {}) =
        [⟨"division by zero", 5, ""⟩] := by
  constructor
  · rfl
  · rfl

/-- C2 (amended): with a divisor whose numeric value is zero, division
raises a RenderError that aborts the render in strict mode only; in
graceful-errors mode it records the division-by-zero error and
continues, pushing a float result.  With a non-zero divisor, division
always produces a floating-point value (and no error), in both modes,
even when both operands are integers. -/
theorem C2_division_by_zero :
    (∀ (ctx : RenderContext) (name : String) (a0 a1 : AstExpr) (rest : List AstExpr)
        (cb : Option CallbackFunction) (pos : Nat) (st st0 st1 : RenderState) (v0 v1 : JVal)
        (tail : List (Option JVal)),
        evalExpr ctx a0 st = .ok st0 → evalExpr ctx a1 st0 = .ok st1 →
        st1.data_eval_stack = some v1 :: some v0 :: tail →
        jToFloat v1 = some 0 → ctx.config.graceful_errors = false →
        ∃ e, evalExpr ctx (.function name .Division (a0 :: a1 :: rest) cb pos) st =
          .error e) ∧
      (∀ (ctx : RenderContext) (name : String) (a0 a1 : AstExpr) (rest : List AstExpr)
          (cb : Option CallbackFunction) (pos : Nat) (st st0 st1 : RenderState) (v0 v1 : JVal)
          (tail : List (Option JVal)) (numer : ℚ),
          evalExpr ctx a0 st = .ok st0 → evalExpr ctx a1 st0 = .ok st1 →
          st1.data_eval_stack = some v1 :: some v0 :: tail →
          jToFloat v1 = some 0 → jToFloat v0 = some numer →
          ctx.config.graceful_errors = true →
          ∃ q : ℚ, evalExpr ctx (.function name .Division (a0 :: a1 :: rest) cb pos) st =
            .ok { st1 with
              data_eval_stack := some (.float q) :: tail,
              render_errors := st1.render_errors ++ [⟨"division by zero", pos, ""⟩] }) ∧
      (∀ (ctx : RenderContext) (name : String) (a0 a1 : AstExpr) (rest : List AstExpr)
          (cb : Option CallbackFunction) (pos : Nat) (st st0 st1 : RenderState) (v0 v1 : JVal)
          (tail : List (Option JVal)) (numer d : ℚ),
          evalExpr ctx a0 st = .ok st0 → evalExpr ctx a1 st0 = .ok st1 →
          st1.data_eval_stack = some v1 :: some v0 :: tail →
          jToFloat v1 = some d → d ≠ 0 → jToFloat v0 = some numer →
          ∃ q : ℚ, evalExpr ctx (.function name .Division (a0 :: a1 :: rest) cb pos) st =
            .ok { st1 with data_eval_stack := some (.float q) :: tail }) := by
  refine ⟨?_, ?_, ?_⟩
  · intro ctx name a0 a1 rest cb pos st st0 st1 v0 v1 tail h0 h1 hstk hd hg
    rw [evalExpr_division, h0]
    simp only [ebind2_ok]
    rw [h1]
    simp only [ebind2_ok]
    rw [get_stack_args_two ctx.config true pos st1 v0 v1 tail hstk]
    simp only [ebind2_ok, List.headD_cons, List.drop_succ_cons, List.drop_zero,
      Option.getD_some, hd]
    simp only [if_true]
    unfold throw_renderer_error
    rw [hg]
    simp only [Bool.false_eq_true, if_false, ebind2_ok, ebind2_error]
    unfold op_try
    rw [hg]
    simp only [Bool.false_eq_true, if_false]
    exact ⟨_, rfl⟩
  · intro ctx name a0 a1 rest cb pos st st0 st1 v0 v1 tail numer h0 h1 hstk hd hn hg
    rw [evalExpr_division, h0]
    simp only [ebind2_ok]
    rw [h1]
    simp only [ebind2_ok]
    rw [get_stack_args_two ctx.config true pos st1 v0 v1 tail hstk]
    simp only [ebind2_ok, List.headD_cons, List.drop_succ_cons, List.drop_zero,
      Option.getD_some, hd]
    simp only [if_true]
    unfold throw_renderer_error
    rw [hg]
    simp only [if_true, ebind2_ok, hn]
    exact ⟨numer / 0, rfl⟩
  · intro ctx name a0 a1 rest cb pos st st0 st1 v0 v1 tail numer d h0 h1 hstk hd hdnz hn
    rw [evalExpr_division, h0]
    simp only [ebind2_ok]
    rw [h1]
    simp only [ebind2_ok]
    rw [get_stack_args_two ctx.config true pos st1 v0 v1 tail hstk]
    simp only [ebind2_ok, List.headD_cons, List.drop_succ_cons, List.drop_zero,
      Option.getD_some, hd]
    rw [if_neg hdnz]
    simp only [ebind2_ok, hn]
    exact ⟨numer / d, rfl⟩

/-- C2 amended-claim witness: 1 / 0 aborts in strict mode, records and
continues in graceful mode, and 1 / 2 yields a float in strict mode. -/
theorem C2_division_by_zero_witness :
    (∃ e, evalExpr { config := {}, function_storage := [] }
        (.function "/" .Division [.literal (.int 1), .literal (.int 0)] Option.none 5) {} =
        .error e) ∧
      (∃ q : ℚ, evalExpr { config := { graceful_errors := true }, function_storage := [] }
          (.function "/" .Division [.literal (.int 1), .literal (.int 0)] Option.none 5) {} =
          .ok { RenderState.mk (.obj [("loop", .null)]) [] [] "" [] [] [] with
            data_eval_stack := [some (.float q)],
            render_errors := [⟨"division by zero", 5, ""⟩] }) ∧
      (∃ q : ℚ, evalExpr { config := {}, function_storage := [] }
          (.function "/" .Division [.literal (.int 1), .literal (.int 2)] Option.none 5) {} =
          .ok { RenderState.mk (.obj [("loop", .null)]) [] [] "" [] [] [] with
            data_eval_stack := [some (.float q)] }) := by
  refine ⟨?_, ?_, ?_⟩
  · exact C2_division_by_zero.1 { config := {}, function_storage := [] } "/"
      (.literal (.int 1)) (.literal (.int 0)) [] Option.none 5 {}
      { data_eval_stack := [some (.int 1)] }
      { data_eval_stack := [some (.int 0), some (.int 1)] } (.int 1) (.int 0) []
      (by rfl) (by rfl) (by rfl) (by rfl) (by rfl)
  · exact C2_division_by_zero.2.1
      { config := { graceful_errors := true }, function_storage := [] }
      "/" (.literal (.int 1)) (.literal (.int 0)) [] Option.none 5 {}
      { data_eval_stack := [some (.int 1)] }
      { data_eval_stack := [some (.int 0), some (.int 1)] } (.int 1) (.int 0) [] 1
      (by rfl) (by rfl) (by rfl) (by rfl) (by rfl) (by rfl)
  · exact C2_division_by_zero.2.2 { config := {}, function_storage := [] } "/"
      (.literal (.int 1)) (.literal (.int 2)) [] Option.none 5 {}
      { data_eval_stack := [some (.int 1)] }
      { data_eval_stack := [some (.int 2), some (.int 1)] } (.int 1) (.int 2) [] 1 2
      (by rfl) (by rfl) (by rfl) (by rfl) (by decide) (by rfl)

/-! ## Claim C4: graceful-mode fallbacks -/

/-- Evaluating an expression list whose root is a reference to a
missing variable, in graceful mode: the not-found record is turned into
a recorded render error carrying the original source span, and none is
returned so the caller can fall back. -/
theorem eval_el_missing (ctx : RenderContext) (name : String) (ptr : List String)
    (dpos epos elen : Nat) (st : RenderState)
    (hg : ctx.config.graceful_errors = true)
    (hstk : st.data_eval_stack = [])
    (h1 : jLookup st.additional_data ptr = Option.none)
    (h2 : jLookup ctx.data_input ptr = Option.none)
    (hop : (find_function ctx.function_storage name 0).operation ≠ .Callback) :
    eval_expression_list ctx ⟨some (.data name ptr dpos), epos, elen⟩ st =
      .ok (Option.none,
        { st with render_errors := st.render_errors ++
            [⟨"variable '" ++ name ++ "' not found", dpos,
              if 0 < elen then substr ctx.template_content epos elen else ""⟩] }) := by
  have hvd := C9_data_resolution.2.2.2 ctx name ptr dpos st h1 h2 hop
  unfold eval_expression_list
  simp only [hvd, ebind_ok, ebind2_ok, hstk]
  unfold throw_renderer_error
  simp only [hg, if_true, true_and]
  by_cases hlen : 0 < elen
  · simp [hlen]
  · simp [hlen, Nat.not_lt.mp]

/-- C4: with graceful errors enabled — an expression-output tag whose
variable is missing emits the exact original source span of the tag
verbatim and records an error; a set statement whose expression is a
missing-variable reference assigns null to the target key in
additional data and records the error without emitting output; and a
for-loop whose collection expression refers to a missing variable
executes zero iterations, produces no output and changes no data,
recording the error.  In each case the render call returns normally so
rendering continues. -/
theorem C4_graceful_fallbacks :
    (∀ (ctx : RenderContext) (name : String) (ptr : List String) (dpos epos elen : Nat)
        (st : RenderState),
        ctx.config.graceful_errors = true → st.data_eval_stack = [] → 0 < elen →
        jLookup st.additional_data ptr = Option.none →
        jLookup ctx.data_input ptr = Option.none →
        (find_function ctx.function_storage name 0).operation ≠ .Callback →
        render_node ctx (.expression_list ⟨some (.data name ptr dpos), epos, elen⟩) st =
          .ok { st with
            output := st.output ++ substr ctx.template_content epos elen,
            render_errors := st.render_errors ++
              [⟨"variable '" ++ name ++ "' not found", dpos,
                substr ctx.template_content epos elen⟩] }) ∧
      (∀ (ctx : RenderContext) (key : String) (name : String) (ptr : List String)
          (dpos epos elen spos : Nat) (st : RenderState) (ad2 : JVal),
          ctx.config.graceful_errors = true → st.data_eval_stack = [] →
          jLookup st.additional_data ptr = Option.none →
          jLookup ctx.data_input ptr = Option.none →
          (find_function ctx.function_storage name 0).operation ≠ .Callback →
          jSetPtr st.additional_data (split_on_dot key) .null = some ad2 →
          ∃ st2, render_node ctx
              (.set_statement key ⟨some (.data name ptr dpos), epos, elen⟩ spos) st =
              .ok st2 ∧
            st2.additional_data = ad2 ∧ st2.output = st.output ∧
            st2.render_errors = st.render_errors ++
              [⟨"variable '" ++ name ++ "' not found", dpos,
                if 0 < elen then substr ctx.template_content epos elen else ""⟩]) ∧
      (∀ (ctx : RenderContext) (v : String) (name : String) (ptr : List String)
          (dpos cpos clen fpos : Nat) (body : List AstNode) (st : RenderState),
          ctx.config.graceful_errors = true → st.data_eval_stack = [] →
          jLookup st.additional_data ptr = Option.none →
          jLookup ctx.data_input ptr = Option.none →
          (find_function ctx.function_storage name 0).operation ≠ .Callback →
          render_node ctx
              (.for_array v ⟨some (.data name ptr dpos), cpos, clen⟩ body fpos) st =
            .ok { st with render_errors := st.render_errors ++
              [⟨"variable '" ++ name ++ "' not found", dpos,
                if 0 < clen then substr ctx.template_content cpos clen else ""⟩] }) := by
  refine ⟨?_, ?_, ?_⟩
  · intro ctx name ptr dpos epos elen st hg hstk hlen h1 h2 hop
    rw [render_node]
    rw [eval_el_missing ctx name ptr dpos epos elen st hg hstk h1 h2 hop]
    simp [hg, hlen]
  · intro ctx key name ptr dpos epos elen spos st ad2 hg hstk h1 h2 hop hset
    rw [render_node]
    have hinp : try_inplace_self_assignment ctx key (split_on_dot key)
        ⟨some (.data name ptr dpos), epos, elen⟩
        (emit_event ctx.config ⟨.SetStatementStart, key, "", 0⟩ st) =
        .ok (false, emit_event ctx.config ⟨.SetStatementStart, key, "", 0⟩ st) := rfl
    simp only [visit_set_statement, set_statement_body]
    rw [hinp]
    simp only [ebind_ok, ebind2_ok, if_false, Bool.false_eq_true]
    have hstk2 : (emit_event ctx.config ⟨.SetStatementStart, key, "", 0⟩ st).data_eval_stack
        = [] := by
      unfold emit_event
      split <;> simpa using hstk
    have h1b : jLookup (emit_event ctx.config
        ⟨.SetStatementStart, key, "", 0⟩ st).additional_data ptr = Option.none := by
      unfold emit_event
      split <;> simpa using h1
    rw [eval_el_missing ctx name ptr dpos epos elen _ hg hstk2 h1b h2 hop]
    simp only [ebind_ok, ebind2_ok, hg, if_true]
    have hset2 : jSetPtr (emit_event ctx.config
        ⟨.SetStatementStart, key, "", 0⟩ st).additional_data (split_on_dot key) .null =
        some ad2 := by
      unfold emit_event
      split <;> simpa using hset
    unfold set_ptr_checked
    simp only [hset2]
    refine ⟨_, rfl, ?_, ?_, ?_⟩ <;> (unfold emit_event; split <;> rfl)
  · intro ctx v name ptr dpos cpos clen fpos body st hg hstk h1 h2 hop
    rw [render_node]
    rw [eval_el_missing ctx name ptr dpos cpos clen st hg hstk h1 h2 hop]
    simp [hg]

/-- C4 witness: the three fallbacks at a concrete graceful context
with the template text X={{ user.email }} and an empty storage. -/
theorem C4_graceful_fallbacks_witness :
    render_node
        { config := { graceful_errors := true }, function_storage := [],
          template_content := "X=\x7b\x7b user.email \x7d\x7d",
          data_input := .obj [("user", .obj [("name", .str "A")])] }
        (.expression_list ⟨some (.data "user.email" ["user", "email"] 5), 2, 17⟩) {} =
      .ok { output := "\x7b\x7b user.email \x7d\x7d",
            render_errors := [⟨"variable 'user.email' not found", 5,
              "\x7b\x7b user.email \x7d\x7d"⟩] } ∧
      (∃ st2, render_node
          { config := { graceful_errors := true }, function_storage := [],
            template_content := "", data_input := .null }
          (.set_statement "k" ⟨some (.data "missing" ["missing"] 0), 0, 0⟩ 0) {} = .ok st2 ∧
        st2.additional_data = .obj [("loop", .null), ("k", .null)] ∧ st2.output = "" ∧
        st2.render_errors = [⟨"variable 'missing' not found", 0, ""⟩]) ∧
      render_node
          { config := { graceful_errors := true }, function_storage := [],
            template_content := "", data_input := .null }
          (.for_array "x" ⟨some (.data "missing" ["missing"] 7), 0, 0⟩ [.text 0 1] 0) {} =
        .ok { render_errors := [⟨"variable 'missing' not found", 7, ""⟩] } := by
  refine ⟨?_, ?_, ?_⟩
  · have h := C4_graceful_fallbacks.1
      { config := { graceful_errors := true }, function_storage := [],
        template_content := "X=\x7b\x7b user.email \x7d\x7d",
        data_input := .obj [("user", .obj [("name", .str "A")])] }
      "user.email" ["user", "email"] 5 2 17 {} (by rfl) (by rfl) (by decide) (by rfl) (by rfl)
      (by decide)
    rw [h]
    rfl
  · have h := C4_graceful_fallbacks.2.1
      { config := { graceful_errors := true }, function_storage := [],
        template_content := "", data_input := .null }
      "k" "missing" ["missing"] 0 0 0 0 {} (.obj [("loop", .null), ("k", .null)])
      (by rfl) (by rfl) (by rfl) (by rfl) (by decide) (by rfl)
    obtain ⟨st2, hrender, had, hout, herr⟩ := h
    exact ⟨st2, hrender, had, hout, by simpa using herr⟩
  · have h := C4_graceful_fallbacks.2.2
      { config := { graceful_errors := true }, function_storage := [],
        template_content := "", data_input := .null }
      "x" "missing" ["missing"] 7 0 0 0 [.text 0 1] {} (by rfl) (by rfl) (by rfl) (by rfl)
      (by decide)
    rw [h]
    rfl

/-! ## Claim C5: in-place self-assignment fast path -/

@[simp] theorem emit_event_additional (cfg : RenderConfig) (d : InstrumentationData)
    (st : RenderState) : (emit_event cfg d st).additional_data = st.additional_data := by
  unfold emit_event
  split <;> rfl

@[simp] theorem emit_event_stack (cfg : RenderConfig) (d : InstrumentationData)
    (st : RenderState) : (emit_event cfg d st).data_eval_stack = st.data_eval_stack := by
  unfold emit_event
  split <;> rfl

@[simp] theorem emit_event_output (cfg : RenderConfig) (d : InstrumentationData)
    (st : RenderState) : (emit_event cfg d st).output = st.output := by
  unfold emit_event
  split <;> rfl

@[simp] theorem emit_event_errors (cfg : RenderConfig) (d : InstrumentationData)
    (st : RenderState) : (emit_event cfg d st).render_errors = st.render_errors := by
  unfold emit_event
  split <;> rfl

/-- C5, fast-path case: when the expression root is a Callback function
node whose first argument is a Data node named like the key, the
registry entry carries an in-place callback, and the key exists in
additional data, the renderer evaluates only the remaining arguments,
hands the existing value to the in-place callback, stores the mutated
value back through the reference, and emits InplaceOptUsed followed by
the inplace SetStatementEnd. -/
theorem inplace_used_case (ctx : RenderContext) (key : String) (dptr : List String)
    (dpos : Nat) (f : String) (rest : List AstExpr) (cb : Option CallbackFunction)
    (fpos epos elen spos : Nat) (st : RenderState) (fd : FunctionData)
    (icb : InPlaceCallbackFunction) (target : JVal) (remaining : Arguments)
    (st2 : RenderState) (ad2 : JVal)
    (hfd : find_function ctx.function_storage f ((rest.length + 1 : Nat) : Int) = fd)
    (hop : fd.operation = .Callback) (hicb : fd.inplace_callback = some icb)
    (hlook : jLookup (emit_event ctx.config ⟨.SetStatementStart, key, "", 0⟩
      st).additional_data (split_on_dot key) = some target)
    (heval : eval_remaining_args ctx fpos rest
      (emit_event ctx.config ⟨.SetStatementStart, key, "", 0⟩ st) = .ok (remaining, st2))
    (hset : jSetPtr st2.additional_data (split_on_dot key) (icb target remaining) = some ad2) :
    render_node ctx (.set_statement key
        ⟨some (.function f .Callback (.data key dptr dpos :: rest) cb fpos), epos, elen⟩
        spos) st =
      .ok (emit_event ctx.config ⟨.SetStatementEnd, key, "inplace", 0⟩
        (emit_event ctx.config
          ⟨.InplaceOptUsed, key, f,
            (match icb target remaining with | .arr xs => xs.length | _ => 0)⟩
          { st2 with additional_data := ad2 })) := by
  rw [render_node]
  have hinp : try_inplace_self_assignment ctx key (split_on_dot key)
      ⟨some (.function f .Callback (.data key dptr dpos :: rest) cb fpos), epos, elen⟩
      (emit_event ctx.config ⟨.SetStatementStart, key, "", 0⟩ st) =
      .ok (true, emit_event ctx.config
        ⟨.InplaceOptUsed, key, f,
          (match icb target remaining with | .arr xs => xs.length | _ => 0)⟩
        { st2 with additional_data := ad2 }) := by
    unfold try_inplace_self_assignment
    simp only [ne_eq, not_true_eq_false, if_false, ite_false, reduceIte, List.length_cons,
      hfd, hop, hicb,
      Option.isNone_some, or_self, jContains, hlook, Option.isSome_some, Bool.not_true,
      Bool.false_eq_true, Option.getD_some, heval, ebind_ok, ebind2_ok]
    unfold set_ptr_checked
    simp only [hset, ebind_ok, ebind2_ok]
  simp only [visit_set_statement, set_statement_body]
  rw [hinp]
  simp only [ebind_ok, ebind2_ok, if_true]

/-- C5, skip case no_inplace_cb: the self-assignment shape is present
but the registry entry at the call's arity is not a Callback entry
carrying an in-place callback; the renderer emits an InplaceOptSkipped
event whose detail names no_inplace_cb and falls back to the ordinary
evaluate-then-assign path on the event-extended state. -/
theorem inplace_skip_no_cb (ctx : RenderContext) (key : String) (dptr : List String)
    (dpos : Nat) (f : String) (rest : List AstExpr) (cb : Option CallbackFunction)
    (fpos epos elen spos : Nat) (st : RenderState) (fd : FunctionData)
    (hfd : find_function ctx.function_storage f ((rest.length + 1 : Nat) : Int) = fd)
    (hskip : fd.operation ≠ .Callback ∨ fd.inplace_callback = Option.none) :
    render_node ctx (.set_statement key
        ⟨some (.function f .Callback (.data key dptr dpos :: rest) cb fpos), epos, elen⟩
        spos) st =
      ordinary_set_path ctx key (split_on_dot key)
        ⟨some (.function f .Callback (.data key dptr dpos :: rest) cb fpos), epos, elen⟩ spos
        (emit_event ctx.config ⟨.InplaceOptSkipped, key, "no_inplace_cb:" ++ f, 0⟩
          (emit_event ctx.config ⟨.SetStatementStart, key, "", 0⟩ st)) := by
  rw [render_node]
  have hinp : try_inplace_self_assignment ctx key (split_on_dot key)
      ⟨some (.function f .Callback (.data key dptr dpos :: rest) cb fpos), epos, elen⟩
      (emit_event ctx.config ⟨.SetStatementStart, key, "", 0⟩ st) =
      .ok (false, emit_event ctx.config ⟨.InplaceOptSkipped, key, "no_inplace_cb:" ++ f, 0⟩
        (emit_event ctx.config ⟨.SetStatementStart, key, "", 0⟩ st)) := by
    unfold try_inplace_self_assignment
    simp only [ne_eq, not_true_eq_false, if_false, ite_false, reduceIte, List.length_cons,
      hfd]
    rw [if_pos (show ¬fd.operation = .Callback ∨ fd.inplace_callback.isNone = true by
      rcases hskip with h | h
      · exact Or.inl h
      · exact Or.inr (by rw [h]; rfl))]
  simp only [visit_set_statement, set_statement_body]
  rw [hinp]
  simp only [ebind_ok, ebind2_ok, Bool.false_eq_true, if_false, ite_false]
  rw [ordinary_set_path]

/-- C5, skip case var_not_exists: the self-assignment shape is present
and the registry entry carries an in-place callback, but the key is
not contained in additional data; the renderer emits an
InplaceOptSkipped event whose detail names var_not_exists and falls
back to the ordinary evaluate-then-assign path. -/
theorem inplace_skip_no_var (ctx : RenderContext) (key : String) (dptr : List String)
    (dpos : Nat) (f : String) (rest : List AstExpr) (cb : Option CallbackFunction)
    (fpos epos elen spos : Nat) (st : RenderState) (fd : FunctionData)
    (icb : InPlaceCallbackFunction)
    (hfd : find_function ctx.function_storage f ((rest.length + 1 : Nat) : Int) = fd)
    (hop : fd.operation = .Callback) (hicb : fd.inplace_callback = some icb)
    (hnc : jContains (emit_event ctx.config ⟨.SetStatementStart, key, "", 0⟩
      st).additional_data (split_on_dot key) = false) :
    render_node ctx (.set_statement key
        ⟨some (.function f .Callback (.data key dptr dpos :: rest) cb fpos), epos, elen⟩
        spos) st =
      ordinary_set_path ctx key (split_on_dot key)
        ⟨some (.function f .Callback (.data key dptr dpos :: rest) cb fpos), epos, elen⟩ spos
        (emit_event ctx.config ⟨.InplaceOptSkipped, key, "var_not_exists:" ++ f, 0⟩
          (emit_event ctx.config ⟨.SetStatementStart, key, "", 0⟩ st)) := by
  rw [render_node]
  have hinp : try_inplace_self_assignment ctx key (split_on_dot key)
      ⟨some (.function f .Callback (.data key dptr dpos :: rest) cb fpos), epos, elen⟩
      (emit_event ctx.config ⟨.SetStatementStart, key, "", 0⟩ st) =
      .ok (false, emit_event ctx.config ⟨.InplaceOptSkipped, key, "var_not_exists:" ++ f, 0⟩
        (emit_event ctx.config ⟨.SetStatementStart, key, "", 0⟩ st)) := by
    unfold try_inplace_self_assignment
    simp only [ne_eq, not_true_eq_false, if_false, ite_false, reduceIte, List.length_cons,
      hfd, hop, hicb, Option.isNone_some, Bool.false_eq_true, or_self, hnc,
      Bool.not_false, if_true]
  simp only [visit_set_statement, set_statement_body]
  rw [hinp]
  simp only [ebind_ok, ebind2_ok, Bool.false_eq_true, if_false, ite_false]
  rw [ordinary_set_path]

/-- C5, shape-absent case: the expression root is a Callback function
node but its first argument is a Data node named differently from the
assigned key; the in-place attempt declines silently (no event) and
the ordinary evaluate-then-assign path runs. -/
theorem inplace_shape_mismatch (ctx : RenderContext) (key dname : String)
    (dptr : List String) (dpos : Nat) (f : String) (rest : List AstExpr)
    (cb : Option CallbackFunction) (fpos epos elen spos : Nat) (st : RenderState)
    (hne : dname ≠ key) :
    render_node ctx (.set_statement key
        ⟨some (.function f .Callback (.data dname dptr dpos :: rest) cb fpos), epos, elen⟩
        spos) st =
      ordinary_set_path ctx key (split_on_dot key)
        ⟨some (.function f .Callback (.data dname dptr dpos :: rest) cb fpos), epos, elen⟩ spos
        (emit_event ctx.config ⟨.SetStatementStart, key, "", 0⟩ st) := by
  rw [render_node]
  have hinp : try_inplace_self_assignment ctx key (split_on_dot key)
      ⟨some (.function f .Callback (.data dname dptr dpos :: rest) cb fpos), epos, elen⟩
      (emit_event ctx.config ⟨.SetStatementStart, key, "", 0⟩ st) =
      .ok (false, emit_event ctx.config ⟨.SetStatementStart, key, "", 0⟩ st) := by
    unfold try_inplace_self_assignment
    simp only [ne_eq, not_true_eq_false, if_false, ite_false, reduceIte]
    rw [if_pos hne]
  simp only [visit_set_statement, set_statement_body]
  rw [hinp]
  simp only [ebind_ok, ebind2_ok, Bool.false_eq_true, if_false, ite_false]
  rw [ordinary_set_path]

/-- C5: for a statement `set K = f(K, a1, ...)` whose expression root
is a Callback function node with first argument a Data node named K:
(1) when the registry entry at the call's arity carries an in-place
callback and K exists in additional data, the renderer evaluates only
the remaining arguments, passes the existing value at K to the
in-place callback, stores the mutated value back, and emits an
InplaceOptUsed event — the first argument is never re-evaluated;
(2) when the entry is not a Callback entry with an in-place callback,
it emits an InplaceOptSkipped event whose detail names no_inplace_cb
and runs the ordinary evaluate-then-assign path;
(3) when the entry qualifies but K is absent from additional data, it
emits an InplaceOptSkipped event whose detail names var_not_exists and
runs the ordinary path;
(4) when the shape is absent (the first argument is a Data node named
differently), the ordinary path runs with no event. -/
theorem C5_inplace_self_assignment (ctx : RenderContext) (key dname f : String)
    (dptr : List String) (dpos fpos epos elen spos : Nat) (rest : List AstExpr)
    (cb : Option CallbackFunction) (st : RenderState) (fd : FunctionData)
    (hfd : find_function ctx.function_storage f ((rest.length + 1 : Nat) : Int) = fd) :
    (∀ icb target remaining st2 ad2, fd.operation = .Callback →
      fd.inplace_callback = some icb →
      jLookup (emit_event ctx.config ⟨.SetStatementStart, key, "", 0⟩ st).additional_data
        (split_on_dot key) = some target →
      eval_remaining_args ctx fpos rest
        (emit_event ctx.config ⟨.SetStatementStart, key, "", 0⟩ st) = .ok (remaining, st2) →
      jSetPtr st2.additional_data (split_on_dot key) (icb target remaining) = some ad2 →
      render_node ctx (.set_statement key
          ⟨some (.function f .Callback (.data key dptr dpos :: rest) cb fpos), epos, elen⟩
          spos) st =
        .ok (emit_event ctx.config ⟨.SetStatementEnd, key, "inplace", 0⟩
          (emit_event ctx.config
            ⟨.InplaceOptUsed, key, f,
              (match icb target remaining with | .arr xs => xs.length | _ => 0)⟩
            { st2 with additional_data := ad2 }))) ∧
    (fd.operation ≠ .Callback ∨ fd.inplace_callback = Option.none →
      render_node ctx (.set_statement key
          ⟨some (.function f .Callback (.data key dptr dpos :: rest) cb fpos), epos, elen⟩
          spos) st =
        ordinary_set_path ctx key (split_on_dot key)
          ⟨some (.function f .Callback (.data key dptr dpos :: rest) cb fpos), epos, elen⟩
          spos
          (emit_event ctx.config ⟨.InplaceOptSkipped, key, "no_inplace_cb:" ++ f, 0⟩
            (emit_event ctx.config ⟨.SetStatementStart, key, "", 0⟩ st))) ∧
    (∀ icb, fd.operation = .Callback → fd.inplace_callback = some icb →
      jContains (emit_event ctx.config ⟨.SetStatementStart, key, "", 0⟩ st).additional_data
        (split_on_dot key) = false →
      render_node ctx (.set_statement key
          ⟨some (.function f .Callback (.data key dptr dpos :: rest) cb fpos), epos, elen⟩
          spos) st =
        ordinary_set_path ctx key (split_on_dot key)
          ⟨some (.function f .Callback (.data key dptr dpos :: rest) cb fpos), epos, elen⟩
          spos
          (emit_event ctx.config ⟨.InplaceOptSkipped, key, "var_not_exists:" ++ f, 0⟩
            (emit_event ctx.config ⟨.SetStatementStart, key, "", 0⟩ st))) ∧
    (dname ≠ key →
      render_node ctx (.set_statement key
          ⟨some (.function f .Callback (.data dname dptr dpos :: rest) cb fpos), epos, elen⟩
          spos) st =
        ordinary_set_path ctx key (split_on_dot key)
          ⟨some (.function f .Callback (.data dname dptr dpos :: rest) cb fpos), epos, elen⟩
          spos (emit_event ctx.config ⟨.SetStatementStart, key, "", 0⟩ st)) := by
  refine ⟨?_, ?_, ?_, ?_⟩
  · intro icb target remaining st2 ad2 hop hicb hlook heval hset
    exact inplace_used_case ctx key dptr dpos f rest cb fpos epos elen spos st fd icb target
      remaining st2 ad2 hfd hop hicb hlook heval hset
  · intro hskip
    exact inplace_skip_no_cb ctx key dptr dpos f rest cb fpos epos elen spos st fd hfd hskip
  · intro icb hop hicb hnc
    exact inplace_skip_no_var ctx key dptr dpos f rest cb fpos epos elen spos st fd icb
      hfd hop hicb hnc
  · intro hne
    exact inplace_shape_mismatch ctx key dname dptr dpos f rest cb fpos epos elen spos st hne

/-- Witness for C5: with touch/1 registered in-place and k bound to 5,
`set k = touch(k)` renders through the fast path to k = 6; with an
unregistered function name the renderer takes the no_inplace_cb skip
into the ordinary path. -/
theorem C5_inplace_self_assignment_witness :
    (render_node touch_ctx
        (.set_statement "k"
          ⟨some (.function "touch" .Callback [.data "k" ["k"] 7] Option.none 3), 3, 10⟩ 0)
        touch_st =
      .ok { additional_data := .obj [("loop", .null), ("k", .int 6)] }) ∧
    (render_node touch_ctx
        (.set_statement "k"
          ⟨some (.function "nope" .Callback [.data "k" ["k"] 7] Option.none 3), 3, 10⟩ 0)
        touch_st =
      ordinary_set_path touch_ctx "k" ["k"]
        ⟨some (.function "nope" .Callback [.data "k" ["k"] 7] Option.none 3), 3, 10⟩ 0
        touch_st) := by
  constructor
  · exact (C5_inplace_self_assignment touch_ctx "k" "j" "touch" ["k"] 7 3 3 10 0 []
      Option.none touch_st ⟨.Callback, some (fun _ => .null), some touch_icb⟩ rfl).1
      touch_icb (.int 5) [] touch_st (.obj [("loop", .null), ("k", .int 6)])
      rfl rfl rfl rfl rfl
  · exact (C5_inplace_self_assignment touch_ctx "k" "j" "nope" ["k"] 7 3 3 10 0 []
      Option.none touch_st ⟨.None, Option.none, Option.none⟩ rfl).2.1 (Or.inl (by decide))


/-! ## Claim C6: for-loop counters -/

/-- One step of jObjFind. -/
theorem jObjFind_cons (q : String × JVal) (rest : List (String × JVal)) (k : String) :
    jObjFind (q :: rest) k = if q.1 == k then some q.2 else jObjFind rest k := by
  unfold jObjFind
  cases hq : (q.1 == k) <;> simp [List.find?_cons, hq]

/-- One step of jObjSet: an updated head when the key matches,
otherwise the head kept and the tail updated. -/
theorem jObjSet_cons (p : String × JVal) (rest : List (String × JVal)) (k : String)
    (v : JVal) :
    jObjSet (p :: rest) k v =
      if p.1 == k then
        (p.1, v) :: rest.map (fun q => if q.1 == k then (q.1, v) else q)
      else p :: jObjSet rest k v := by
  unfold jObjSet
  cases hp : (p.1 == k)
  · have hp' : ¬ p.1 = k := by simpa using hp
    cases hf : (rest.find? (fun q => q.1 == k)).isSome <;>
      simp [List.find?_cons, hp, hp', hf, jObjSet]
  · have hp' : p.1 = k := by simpa using hp
    simp [List.find?_cons, hp, hp']

/-- Setting a key makes it found with the new value. -/
theorem jObjFind_jObjSet_same (fs : List (String × JVal)) (k : String) (v : JVal) :
    jObjFind (jObjSet fs k v) k = some v := by
  induction fs with
  | nil => simp [jObjSet, jObjFind_cons, jObjFind]
  | cons p rest ih =>
    rw [jObjSet_cons]
    cases hp : (p.1 == k)
    · simp only [hp, Bool.false_eq_true, if_false, ite_false]
      rw [jObjFind_cons]
      simp only [hp, Bool.false_eq_true, if_false, ite_false]
      exact ih
    · simp only [hp, if_true, ite_true]
      rw [jObjFind_cons]
      simp [hp]

/-- The pointwise update jObjSet performs on an existing key leaves
lookups of every other key unchanged. -/
theorem jObjFind_map_keep (fs : List (String × JVal)) (k k' : String) (v : JVal)
    (h : (k == k') = false) :
    jObjFind (fs.map (fun q => if q.1 == k then (q.1, v) else q)) k' = jObjFind fs k' := by
  induction fs with
  | nil => rfl
  | cons p rest ih =>
    simp only [List.map_cons]
    rw [jObjFind_cons, jObjFind_cons]
    cases hp : (p.1 == k)
    · simp only [hp, Bool.false_eq_true, if_false, ite_false]
      cases hpk : (p.1 == k')
      · simp only [hpk, Bool.false_eq_true, if_false, ite_false]
        exact ih
      · simp only [hpk, if_true, ite_true]
    · have hp1 : p.1 = k := by simpa using hp
      have hpk : (p.1 == k') = false := by rw [hp1]; exact h
      simp only [hp, if_true, ite_true, hpk, Bool.false_eq_true, if_false, ite_false]
      exact ih

/-- Setting a key leaves lookups of every other key unchanged. -/
theorem jObjFind_jObjSet_ne (fs : List (String × JVal)) (k k' : String) (v : JVal)
    (h : (k == k') = false) :
    jObjFind (jObjSet fs k v) k' = jObjFind fs k' := by
  induction fs with
  | nil => simp [jObjSet, jObjFind_cons, jObjFind, h]
  | cons p rest ih =>
    rw [jObjSet_cons]
    cases hp : (p.1 == k)
    · simp only [hp, Bool.false_eq_true, if_false, ite_false]
      rw [jObjFind_cons, jObjFind_cons]
      cases hpk : (p.1 == k') <;> simp [hpk, ih]
    · have hp1 : p.1 = k := by simpa using hp
      have hpk : (p.1 == k') = false := by rw [hp1]; exact h
      simp only [hp, if_true, ite_true]
      rw [jObjFind_cons, jObjFind_cons]
      simp only [hpk, Bool.false_eq_true, if_false, ite_false]
      exact jObjFind_map_keep rest k k' v h

/-- Two writes to the same key collapse to the second. -/
theorem jObjSet_jObjSet_same (fs : List (String × JVal)) (k : String) (a b : JVal) :
    jObjSet (jObjSet fs k a) k b = jObjSet fs k b := by
  induction fs with
  | nil => simp [jObjSet, List.find?_cons]
  | cons p rest ih =>
    cases hp : (p.1 == k)
    · rw [jObjSet_cons]
      simp only [hp, Bool.false_eq_true, if_false, ite_false]
      rw [jObjSet_cons]
      simp only [hp, Bool.false_eq_true, if_false, ite_false]
      rw [jObjSet_cons]
      simp only [hp, Bool.false_eq_true, if_false, ite_false, ih]
    · rw [jObjSet_cons]
      simp only [hp, if_true, ite_true]
      rw [jObjSet_cons]
      simp only [hp, if_true, ite_true]
      rw [jObjSet_cons]
      simp only [hp, if_true, ite_true, List.cons.injEq, true_and]
      rw [List.map_map]
      refine List.map_congr_left (fun q _ => ?_)
      by_cases hq : q.1 = k
      · simp [hq, Function.comp]
      · simp [hq, Function.comp]

/-- set_key_checked on an object-shaped additional data. -/
theorem set_key_checked_obj (k : String) (x : JVal) (pos : Nat) (st : RenderState)
    (gs : List (String × JVal)) (had : st.additional_data = .obj gs) :
    set_key_checked k x pos st =
      .ok { st with additional_data := .obj (jObjSet gs k x) } := by
  unfold set_key_checked jSetKey
  rw [had]

/-- set_loop_field on an object-shaped additional data whose loop
member is an object. -/
theorem set_loop_field_obj (k : String) (x : JVal) (pos : Nat) (st : RenderState)
    (gs lf : List (String × JVal)) (had : st.additional_data = .obj gs)
    (hl : jObjFind gs "loop" = some (.obj lf)) :
    set_loop_field k x pos st =
      .ok { st with additional_data := .obj (jObjSet gs "loop" (.obj (jObjSet lf k x))) } := by
  unfold set_loop_field
  rw [had]
  simp [jSetPtr, hl]

/-- Evaluating an output tag whose root is a Data node that resolves
in additional data: the value is printed and the eval stack is left
empty. -/
theorem render_data_expression (ctx : RenderContext) (name : String) (ptr : List String)
    (dpos epos elen : Nat) (st : RenderState) (v : JVal)
    (hstack : st.data_eval_stack = [])
    (hlook : jLookup st.additional_data ptr = some v) :
    render_node ctx (.expression_list ⟨some (.data name ptr dpos), epos, elen⟩) st =
      .ok { st with data_eval_stack := [],
                    output := st.output ++ print_data ctx.config v } := by
  have he : eval_expression_list ctx ⟨some (.data name ptr dpos), epos, elen⟩ st =
      .ok (some v, { st with data_eval_stack := [] }) := by
    simp only [eval_expression_list]
    rw [evalExpr_data]
    unfold visit_data
    rw [hlook]
    simp only [ebind_ok, ebind2_ok, hstack]
  rw [render_node, he]
  simp only [ebind_ok, ebind2_ok]

/-- The body of the example loop rendered from the iteration-0 state:
it prints index1, a colon, the loop variable and a semicolon. -/
theorem forloop_body_run0 : render_nodes forloop_ctx forloop_body
    { additional_data := .obj [("loop", .obj [("is_first", .bool true),
        ("is_last", .bool false), ("index", .int 0), ("index1", .int 1)]),
        ("x", .str "a")] } =
    .ok { additional_data := .obj [("loop", .obj [("is_first", .bool true),
        ("is_last", .bool false), ("index", .int 0), ("index1", .int 1)]),
        ("x", .str "a")], output := "1:a;" } := by
  have hsub1 : substr forloop_ctx.template_content 34 1 = ":" := rfl
  have hsub2 : substr forloop_ctx.template_content 42 1 = ";" := rfl
  have hpd1 : print_data forloop_ctx.config (.int 1) = "1" := rfl
  have hpda : print_data forloop_ctx.config (.str "a") = "a" := rfl
  have ha01 : ("" ++ "1" : String) = "1" := rfl
  have ha02 : ("1" ++ ":" : String) = "1:" := rfl
  have ha03 : ("1:" ++ "a" : String) = "1:a" := rfl
  have ha04 : ("1:a" ++ ";" : String) = "1:a;" := rfl
  simp only [forloop_body]
  rw [render_nodes, render_data_expression forloop_ctx "loop.index1" ["loop", "index1"]
    20 17 17
    { additional_data := .obj [("loop", .obj [("is_first", .bool true),
        ("is_last", .bool false), ("index", .int 0), ("index1", .int 1)]),
        ("x", .str "a")] }
    (.int 1) rfl rfl]
  simp only [ebind_ok, ebind2_ok, hpd1, ha01]
  rw [render_nodes, render_node]
  simp only [ebind_ok, ebind2_ok, hsub1, ha02]
  rw [render_nodes, render_data_expression forloop_ctx "x" ["x"] 38 35 7
    { additional_data := .obj [("loop", .obj [("is_first", .bool true),
        ("is_last", .bool false), ("index", .int 0), ("index1", .int 1)]),
        ("x", .str "a")], output := "1:" }
    (.str "a") rfl rfl]
  simp only [ebind_ok, ebind2_ok, hpda, ha03]
  rw [render_nodes, render_node]
  simp only [ebind_ok, ebind2_ok, hsub2, ha04]
  rw [render_nodes]

/-- The body of the example loop rendered from the iteration-1 state. -/
theorem forloop_body_run1 : render_nodes forloop_ctx forloop_body
    { additional_data := .obj [("loop", .obj [("is_first", .bool false),
        ("is_last", .bool false), ("index", .int 1), ("index1", .int 2)]),
        ("x", .str "b")], output := "1:a;" } =
    .ok { additional_data := .obj [("loop", .obj [("is_first", .bool false),
        ("is_last", .bool false), ("index", .int 1), ("index1", .int 2)]),
        ("x", .str "b")], output := "1:a;2:b;" } := by
  have hsub1 : substr forloop_ctx.template_content 34 1 = ":" := rfl
  have hsub2 : substr forloop_ctx.template_content 42 1 = ";" := rfl
  have hpd2 : print_data forloop_ctx.config (.int 2) = "2" := rfl
  have hpdb : print_data forloop_ctx.config (.str "b") = "b" := rfl
  have ha11 : ("1:a;" ++ "2" : String) = "1:a;2" := rfl
  have ha12 : ("1:a;2" ++ ":" : String) = "1:a;2:" := rfl
  have ha13 : ("1:a;2:" ++ "b" : String) = "1:a;2:b" := rfl
  have ha14 : ("1:a;2:b" ++ ";" : String) = "1:a;2:b;" := rfl
  simp only [forloop_body]
  rw [render_nodes, render_data_expression forloop_ctx "loop.index1" ["loop", "index1"]
    20 17 17
    { additional_data := .obj [("loop", .obj [("is_first", .bool false),
        ("is_last", .bool false), ("index", .int 1), ("index1", .int 2)]),
        ("x", .str "b")], output := "1:a;" }
    (.int 2) rfl rfl]
  simp only [ebind_ok, ebind2_ok, hpd2, ha11]
  rw [render_nodes, render_node]
  simp only [ebind_ok, ebind2_ok, hsub1, ha12]
  rw [render_nodes, render_data_expression forloop_ctx "x" ["x"] 38 35 7
    { additional_data := .obj [("loop", .obj [("is_first", .bool false),
        ("is_last", .bool false), ("index", .int 1), ("index1", .int 2)]),
        ("x", .str "b")], output := "1:a;2:" }
    (.str "b") rfl rfl]
  simp only [ebind_ok, ebind2_ok, hpdb, ha13]
  rw [render_nodes, render_node]
  simp only [ebind_ok, ebind2_ok, hsub2, ha14]
  rw [render_nodes]

/-- The body of the example loop rendered from the iteration-2 state. -/
theorem forloop_body_run2 : render_nodes forloop_ctx forloop_body
    { additional_data := .obj [("loop", .obj [("is_first", .bool false),
        ("is_last", .bool true), ("index", .int 2), ("index1", .int 3)]),
        ("x", .str "c")], output := "1:a;2:b;" } =
    .ok { additional_data := .obj [("loop", .obj [("is_first", .bool false),
        ("is_last", .bool true), ("index", .int 2), ("index1", .int 3)]),
        ("x", .str "c")], output := "1:a;2:b;3:c;" } := by
  have hsub1 : substr forloop_ctx.template_content 34 1 = ":" := rfl
  have hsub2 : substr forloop_ctx.template_content 42 1 = ";" := rfl
  have hpd3 : print_data forloop_ctx.config (.int 3) = "3" := rfl
  have hpdc : print_data forloop_ctx.config (.str "c") = "c" := rfl
  have ha21 : ("1:a;2:b;" ++ "3" : String) = "1:a;2:b;3" := rfl
  have ha22 : ("1:a;2:b;3" ++ ":" : String) = "1:a;2:b;3:" := rfl
  have ha23 : ("1:a;2:b;3:" ++ "c" : String) = "1:a;2:b;3:c" := rfl
  have ha24 : ("1:a;2:b;3:c" ++ ";" : String) = "1:a;2:b;3:c;" := rfl
  simp only [forloop_body]
  rw [render_nodes, render_data_expression forloop_ctx "loop.index1" ["loop", "index1"]
    20 17 17
    { additional_data := .obj [("loop", .obj [("is_first", .bool false),
        ("is_last", .bool true), ("index", .int 2), ("index1", .int 3)]),
        ("x", .str "c")], output := "1:a;2:b;" }
    (.int 3) rfl rfl]
  simp only [ebind_ok, ebind2_ok, hpd3, ha21]
  rw [render_nodes, render_node]
  simp only [ebind_ok, ebind2_ok, hsub1, ha22]
  rw [render_nodes, render_data_expression forloop_ctx "x" ["x"] 38 35 7
    { additional_data := .obj [("loop", .obj [("is_first", .bool false),
        ("is_last", .bool true), ("index", .int 2), ("index1", .int 3)]),
        ("x", .str "c")], output := "1:a;2:b;3:" }
    (.str "c") rfl rfl]
  simp only [ebind_ok, ebind2_ok, hpdc, ha23]
  rw [render_nodes, render_node]
  simp only [ebind_ok, ebind2_ok, hsub2, ha24]
  rw [render_nodes]

/-- One unfolding step of the element loop, phrased over the outcomes
of its six stages: the writes, the conditional writes, and the body
render of one iteration. -/
theorem for_array_go_cons_step (rb : RenderState → Except RFail RenderState)
    (value : String) (total pos : Nat) (x : JVal) (xs : List JVal) (index : Nat)
    (st st1 st2 st3 st4 st5 st6 : RenderState)
    (h1 : set_key_checked value x pos st = .ok st1)
    (h2 : set_loop_field "index" (.int index) pos st1 = .ok st2)
    (h3 : set_loop_field "index1" (.int (index + 1)) pos st2 = .ok st3)
    (h4 : (if index = 1 then set_loop_field "is_first" (.bool false) pos st3
      else .ok st3) = .ok st4)
    (h5 : (if index = total - 1 then set_loop_field "is_last" (.bool true) pos st4
      else .ok st4) = .ok st5)
    (h6 : rb st5 = .ok st6) :
    for_array_go rb value total pos (x :: xs) index st =
      for_array_go rb value total pos xs (index + 1) st6 := by
  rw [for_array_go, h1]
  simp only [ebind_ok, ebind2_ok]
  rw [h2]
  simp only [ebind_ok, ebind2_ok]
  rw [h3]
  simp only [ebind_ok, ebind2_ok]
  rw [h4]
  simp only [ebind_ok, ebind2_ok]
  rw [h5]
  simp only [ebind_ok, ebind2_ok]
  rw [h6]
  simp only [ebind_ok, ebind2_ok]

/-- Iteration 0 of the example loop: binds x to a, writes the loop
counters, renders the body, and recurses on the remaining elements. -/
theorem forloop_iter0 :
    for_array_go (fun s => render_nodes forloop_ctx forloop_body s) "x" 3 0
      [.str "a", .str "b", .str "c"] 0
      { additional_data := .obj [("loop", .obj [("is_first", .bool true),
          ("is_last", .bool false)])] } =
    for_array_go (fun s => render_nodes forloop_ctx forloop_body s) "x" 3 0
      [.str "b", .str "c"] 1
      { additional_data := .obj [("loop", .obj [("is_first", .bool true),
          ("is_last", .bool false), ("index", .int 0), ("index1", .int 1)]),
          ("x", .str "a")], output := "1:a;" } :=
  for_array_go_cons_step (fun s => render_nodes forloop_ctx forloop_body s) "x" 3 0
    (.str "a") [.str "b", .str "c"] 0
    { additional_data := .obj [("loop", .obj [("is_first", .bool true),
        ("is_last", .bool false)])] }
    { additional_data := .obj [("loop", .obj [("is_first", .bool true),
        ("is_last", .bool false)]), ("x", .str "a")] }
    { additional_data := .obj [("loop", .obj [("is_first", .bool true),
        ("is_last", .bool false), ("index", .int 0)]), ("x", .str "a")] }
    { additional_data := .obj [("loop", .obj [("is_first", .bool true),
        ("is_last", .bool false), ("index", .int 0), ("index1", .int 1)]),
        ("x", .str "a")] }
    { additional_data := .obj [("loop", .obj [("is_first", .bool true),
        ("is_last", .bool false), ("index", .int 0), ("index1", .int 1)]),
        ("x", .str "a")] }
    { additional_data := .obj [("loop", .obj [("is_first", .bool true),
        ("is_last", .bool false), ("index", .int 0), ("index1", .int 1)]),
        ("x", .str "a")] }
    { additional_data := .obj [("loop", .obj [("is_first", .bool true),
        ("is_last", .bool false), ("index", .int 0), ("index1", .int 1)]),
        ("x", .str "a")], output := "1:a;" }
    rfl rfl rfl rfl rfl forloop_body_run0

/-- Iteration 1 of the example loop: binds x to b, updates the
counters, drops is_first, renders the body, and recurses. -/
theorem forloop_iter1 :
    for_array_go (fun s => render_nodes forloop_ctx forloop_body s) "x" 3 0
      [.str "b", .str "c"] 1
      { additional_data := .obj [("loop", .obj [("is_first", .bool true),
          ("is_last", .bool false), ("index", .int 0), ("index1", .int 1)]),
          ("x", .str "a")], output := "1:a;" } =
    for_array_go (fun s => render_nodes forloop_ctx forloop_body s) "x" 3 0
      [.str "c"] 2
      { additional_data := .obj [("loop", .obj [("is_first", .bool false),
          ("is_last", .bool false), ("index", .int 1), ("index1", .int 2)]),
          ("x", .str "b")], output := "1:a;2:b;" } :=
  for_array_go_cons_step (fun s => render_nodes forloop_ctx forloop_body s) "x" 3 0
    (.str "b") [.str "c"] 1
    { additional_data := .obj [("loop", .obj [("is_first", .bool true),
        ("is_last", .bool false), ("index", .int 0), ("index1", .int 1)]),
        ("x", .str "a")], output := "1:a;" }
    { additional_data := .obj [("loop", .obj [("is_first", .bool true),
        ("is_last", .bool false), ("index", .int 0), ("index1", .int 1)]),
        ("x", .str "b")], output := "1:a;" }
    { additional_data := .obj [("loop", .obj [("is_first", .bool true),
        ("is_last", .bool false), ("index", .int 1), ("index1", .int 1)]),
        ("x", .str "b")], output := "1:a;" }
    { additional_data := .obj [("loop", .obj [("is_first", .bool true),
        ("is_last", .bool false), ("index", .int 1), ("index1", .int 2)]),
        ("x", .str "b")], output := "1:a;" }
    { additional_data := .obj [("loop", .obj [("is_first", .bool false),
        ("is_last", .bool false), ("index", .int 1), ("index1", .int 2)]),
        ("x", .str "b")], output := "1:a;" }
    { additional_data := .obj [("loop", .obj [("is_first", .bool false),
        ("is_last", .bool false), ("index", .int 1), ("index1", .int 2)]),
        ("x", .str "b")], output := "1:a;" }
    { additional_data := .obj [("loop", .obj [("is_first", .bool false),
        ("is_last", .bool false), ("index", .int 1), ("index1", .int 2)]),
        ("x", .str "b")], output := "1:a;2:b;" }
    rfl rfl rfl rfl rfl forloop_body_run1

/-- Iteration 2 of the example loop: binds x to c, updates the
counters, raises is_last, renders the body, and recurses on the empty
tail. -/
theorem forloop_iter2 :
    for_array_go (fun s => render_nodes forloop_ctx forloop_body s) "x" 3 0
      [.str "c"] 2
      { additional_data := .obj [("loop", .obj [("is_first", .bool false),
          ("is_last", .bool false), ("index", .int 1), ("index1", .int 2)]),
          ("x", .str "b")], output := "1:a;2:b;" } =
    for_array_go (fun s => render_nodes forloop_ctx forloop_body s) "x" 3 0
      [] 3
      { additional_data := .obj [("loop", .obj [("is_first", .bool false),
          ("is_last", .bool true), ("index", .int 2), ("index1", .int 3)]),
          ("x", .str "c")], output := "1:a;2:b;3:c;" } :=
  for_array_go_cons_step (fun s => render_nodes forloop_ctx forloop_body s) "x" 3 0
    (.str "c") [] 2
    { additional_data := .obj [("loop", .obj [("is_first", .bool false),
        ("is_last", .bool false), ("index", .int 1), ("index1", .int 2)]),
        ("x", .str "b")], output := "1:a;2:b;" }
    { additional_data := .obj [("loop", .obj [("is_first", .bool false),
        ("is_last", .bool false), ("index", .int 1), ("index1", .int 2)]),
        ("x", .str "c")], output := "1:a;2:b;" }
    { additional_data := .obj [("loop", .obj [("is_first", .bool false),
        ("is_last", .bool false), ("index", .int 2), ("index1", .int 2)]),
        ("x", .str "c")], output := "1:a;2:b;" }
    { additional_data := .obj [("loop", .obj [("is_first", .bool false),
        ("is_last", .bool false), ("index", .int 2), ("index1", .int 3)]),
        ("x", .str "c")], output := "1:a;2:b;" }
    { additional_data := .obj [("loop", .obj [("is_first", .bool false),
        ("is_last", .bool false), ("index", .int 2), ("index1", .int 3)]),
        ("x", .str "c")], output := "1:a;2:b;" }
    { additional_data := .obj [("loop", .obj [("is_first", .bool false),
        ("is_last", .bool true), ("index", .int 2), ("index1", .int 3)]),
        ("x", .str "c")], output := "1:a;2:b;" }
    { additional_data := .obj [("loop", .obj [("is_first", .bool false),
        ("is_last", .bool true), ("index", .int 2), ("index1", .int 3)]),
        ("x", .str "c")], output := "1:a;2:b;3:c;" }
    rfl rfl rfl rfl rfl forloop_body_run2

/-- The whole element loop of the example: three iterations then the
empty tail. -/
theorem forloop_loop :
    for_array_go (fun s => render_nodes forloop_ctx forloop_body s) "x" 3 0
      [.str "a", .str "b", .str "c"] 0
      { additional_data := .obj [("loop", .obj [("is_first", .bool true),
          ("is_last", .bool false)])] } =
    .ok (3, { additional_data := .obj [("loop", .obj [("is_first", .bool false),
          ("is_last", .bool true), ("index", .int 2), ("index1", .int 3)]),
          ("x", .str "c")], output := "1:a;2:b;3:c;" }) := by
  rw [forloop_iter0, forloop_iter1, forloop_iter2, for_array_go]

/-- The concrete for-loop example of the claim: the template renders
to 1:a;2:b;3:c; and leaves the final loop object (with the inserted
null parent) and the cleared loop variable behind. -/
theorem forloop_example : render_node forloop_ctx forloop_node {} =
    .ok { additional_data := .obj [("loop", .obj [("is_first", .bool false),
            ("is_last", .bool true), ("index", .int 2), ("index1", .int 3),
            ("parent", .null)]), ("x", .str "")],
          output := "1:a;2:b;3:c;" } := by
  have hcond : eval_expression_list forloop_ctx ⟨some (.data "xs" ["xs"] 12), 12, 2⟩ {} =
      .ok (some (.arr [.str "a", .str "b", .str "c"]), {}) := rfl
  have hpro : for_array_prologue forloop_ctx "x" (.arr [.str "a", .str "b", .str "c"]) 0 {} =
      .ok { additional_data := .obj [("loop",
        .obj [("is_first", .bool true), ("is_last", .bool false)])] } := rfl
  have hsize : jSize (.arr [.str "a", .str "b", .str "c"]) = 3 := rfl
  have helems : jElems (.arr [.str "a", .str "b", .str "c"]) =
      [.str "a", .str "b", .str "c"] := rfl
  unfold forloop_node
  rw [render_node, hcond]
  simp only [ebind_ok, ebind2_ok, hsize, helems]
  rw [hpro]
  simp only [ebind_ok, ebind2_ok]
  rw [forloop_loop]
  simp only [ebind_ok, ebind2_ok]
  exact show for_array_epilogue forloop_ctx "x" 3 0
      { additional_data := .obj [("loop", .obj [("is_first", .bool false),
          ("is_last", .bool true), ("index", .int 2), ("index1", .int 3)]),
          ("x", .str "c")], output := "1:a;2:b;3:c;" } =
    .ok { additional_data := .obj [("loop", .obj [("is_first", .bool false),
            ("is_last", .bool true), ("index", .int 2), ("index1", .int 3),
            ("parent", .null)]), ("x", .str "")],
          output := "1:a;2:b;3:c;" } from rfl

/-- jObjSet on the empty field list appends. -/
theorem jObjSet_nil (k : String) (v : JVal) : jObjSet [] k v = [(k, v)] := rfl

/-- set_loop_field through an additional data already of the shape
written by a previous loop-field write: the two writes to the loop
member collapse. -/
theorem set_loop_field_collapse (k : String) (x : JVal) (pos : Nat) (st : RenderState)
    (gs lf : List (String × JVal))
    (had : st.additional_data = .obj (jObjSet gs "loop" (.obj lf))) :
    set_loop_field k x pos st =
      .ok { st with additional_data := .obj (jObjSet gs "loop" (.obj (jObjSet lf k x))) } := by
  rw [set_loop_field_obj k x pos st (jObjSet gs "loop" (.obj lf)) lf had
    (jObjFind_jObjSet_same gs "loop" (.obj lf)), jObjSet_jObjSet_same]

/-- The conditional loop-field writes of the element loop, in the same
collapsed shape. -/
theorem set_loop_field_if_collapse (c : Prop) [inst : Decidable c] (k : String) (x : JVal)
    (pos : Nat) (st : RenderState) (gs lf : List (String × JVal))
    (had : st.additional_data = .obj (jObjSet gs "loop" (.obj lf))) :
    (if c then set_loop_field k x pos st else .ok st) =
      .ok { st with additional_data := .obj (jObjSet gs "loop" (.obj (if c then jObjSet lf k x else lf))) } := by
  by_cases hc : c
  · rw [if_pos hc, if_pos hc]
    exact set_loop_field_collapse k x pos st gs lf had
  · rw [if_neg hc, if_neg hc, ← had]

/-- One iteration of loop-field writes turns the loop object found at
the head of the iteration into exactly the loop_fields object of the
claim. -/
theorem loop_obj_step (i n : Nat) (lentry : List (String × JVal))
    (hle : loop_entry_obj i n = .obj lentry) (hin : i < n) :
    JVal.obj (if i = n - 1 then
        jObjSet (if i = 1 then
            jObjSet (jObjSet (jObjSet lentry "index" (.int (i : ℤ))) "index1"
              (.int ((i : ℤ) + 1))) "is_first" (.bool false)
          else jObjSet (jObjSet lentry "index" (.int (i : ℤ))) "index1"
            (.int ((i : ℤ) + 1))) "is_last" (.bool true)
      else (if i = 1 then
            jObjSet (jObjSet (jObjSet lentry "index" (.int (i : ℤ))) "index1"
              (.int ((i : ℤ) + 1))) "is_first" (.bool false)
          else jObjSet (jObjSet lentry "index" (.int (i : ℤ))) "index1"
            (.int ((i : ℤ) + 1)))) = loop_fields i n := by
  rcases i with _ | j
  · have hE : lentry = [("is_first", .bool true), ("is_last", .bool (decide (n ≤ 1)))] := by
      have h := hle
      simp only [loop_entry_obj, eq_self_iff_true, if_true, ite_true, JVal.obj.injEq] at h
      exact h.symm
    subst hE
    simp only [Nat.cast_zero, zero_add, Nat.reduceEqDiff, reduceIte,
      jObjSet_cons, jObjSet_nil, List.map_cons, List.map_nil]
    by_cases hn1 : n = 1
    · subst hn1
      simp [loop_fields, jObjSet_cons, jObjSet_nil]
    · have h0 : ¬((0 : Nat) = n - 1) := by omega
      rw [if_neg h0]
      have e1 : decide (n ≤ 1) = false := decide_eq_false (by omega)
      have e2 : decide ((0 : Nat) = n - 1) = false := decide_eq_false h0
      simp [loop_fields, jObjSet_cons, jObjSet_nil, e1, e2]
  · have hE : lentry = [("is_first", .bool (decide (j = 0))),
        ("is_last", .bool (decide (j = n - 1))), ("index", .int (j : ℤ)),
        ("index1", .int ((j : ℤ) + 1))] := by
      have h := hle
      simp only [loop_entry_obj, loop_fields, Nat.succ_ne_zero, if_false, ite_false,
        Nat.add_sub_cancel, JVal.obj.injEq, Nat.cast_add, Nat.cast_one] at h
      exact h.symm
    subst hE
    by_cases h1 : j + 1 = 1
    · have hj0 : j = 0 := by omega
      subst hj0
      simp only [Nat.cast_one, zero_add, Nat.reduceEqDiff, reduceIte,
        jObjSet_cons, jObjSet_nil, List.map_cons, List.map_nil]
      by_cases h2 : (1 : Nat) = n - 1
      · rw [if_pos h2]
        have e2 : decide ((1 : Nat) = n - 1) = true := decide_eq_true h2
        simp [loop_fields, jObjSet_cons, jObjSet_nil, e2]
      · rw [if_neg h2]
        have e0 : decide ((0 : Nat) = n - 1) = false := decide_eq_false (by omega)
        have e2 : decide ((1 : Nat) = n - 1) = false := decide_eq_false h2
        simp [loop_fields, jObjSet_cons, jObjSet_nil, e0, e2]
    · have hj1 : ¬(j = 0) := by omega
      rw [if_neg h1]
      have ef : decide (j = 0) = false := decide_eq_false hj1
      have ef2 : decide (j + 1 = 0) = false := decide_eq_false (by omega)
      by_cases h2 : j + 1 = n - 1
      · rw [if_pos h2]
        have e2 : decide (j + 1 = n - 1) = true := decide_eq_true h2
        simp [loop_fields, jObjSet_cons, jObjSet_nil, ef, ef2, e2, Nat.cast_add,
          Nat.cast_one]
      · rw [if_neg h2]
        have e1 : decide (j = n - 1) = false := decide_eq_false (by omega)
        have e2 : decide (j + 1 = n - 1) = false := decide_eq_false h2
        simp [loop_fields, jObjSet_cons, jObjSet_nil, ef, ef2, e1, e2, Nat.cast_add,
          Nat.cast_one]

/-- The element loop of visit(ForArrayStatementNode) agrees with the
specification-side runner spec_for_array_run: the body runs once per
element, in array order, and always sees the loop variable bound to
the current element and the loop object equal to loop_fields i n.
The body is assumed to leave additional data unchanged, which holds
for the output-only bodies the claim quantifies over. -/
theorem for_array_go_eq_spec (body : RenderState → Except RFail RenderState)
    (value : String) (hv : (value == "loop") = false) (n pos : Nat)
    (hbody : ∀ s s', body s = .ok s' → s'.additional_data = s.additional_data) :
    ∀ (xs : List JVal) (i : Nat) (st : RenderState) (gs : List (String × JVal)),
      st.additional_data = .obj gs →
      jObjFind gs "loop" = some (loop_entry_obj i n) →
      i + xs.length = n →
      for_array_go body value n pos xs i st = spec_for_array_run body value n xs i st := by
  intro xs
  induction xs with
  | nil =>
    intro i st gs had hl hlen
    rfl
  | cons x rest ih =>
    intro i st gs had hl hlen
    obtain ⟨lentry, hle⟩ : ∃ lf, loop_entry_obj i n = .obj lf := by
      unfold loop_entry_obj
      split
      · exact ⟨_, rfl⟩
      · unfold loop_fields
        exact ⟨_, rfl⟩
    have hl' : jObjFind gs "loop" = some (.obj lentry) := by rw [hl, hle]
    have hin : i < n := by
      simp only [List.length_cons] at hlen
      omega
    have he2 : loop_entry_obj (i + 1) n = loop_fields i n := by
      simp [loop_entry_obj]
    rw [for_array_go]
    rw [set_key_checked_obj value x pos st gs had]
    simp only [ebind_ok, ebind2_ok]
    rw [set_loop_field_obj "index" (.int (i : ℤ)) pos _ (jObjSet gs value x) lentry rfl
      ((jObjFind_jObjSet_ne gs value "loop" x hv).trans hl')]
    simp only [ebind_ok, ebind2_ok]
    rw [set_loop_field_collapse "index1" (.int ((i : ℤ) + 1)) pos _ (jObjSet gs value x)
      (jObjSet lentry "index" (.int (i : ℤ))) rfl]
    simp only [ebind_ok, ebind2_ok]
    rw [set_loop_field_if_collapse (i = 1) "is_first" (.bool false) pos _
      (jObjSet gs value x) _ rfl]
    simp only [ebind_ok, ebind2_ok]
    rw [set_loop_field_if_collapse (i = n - 1) "is_last" (.bool true) pos _
      (jObjSet gs value x) _ rfl]
    simp only [ebind_ok, ebind2_ok]
    rw [loop_obj_step i n lentry hle hin]
    simp only [spec_for_array_run, had, jSetKey, Option.getD_some, jSetPtr]
    have key : ∀ (st' : RenderState),
        st'.additional_data = .obj (jObjSet (jObjSet gs value x) "loop" (loop_fields i n)) →
        Except.bind (body st')
            (fun st => for_array_go body value n pos rest (i + 1) st) =
          Except.bind (body st')
            (fun st2 => spec_for_array_run body value n rest (i + 1) st2) := by
      intro st' hst'
      cases hb : body st' with
      | error e => simp only [hb, ebind_error, ebind2_error]
      | ok st6 =>
        simp only [hb, ebind_ok, ebind2_ok]
        exact ih (i + 1) st6 (jObjSet (jObjSet gs value x) "loop" (loop_fields i n))
          ((hbody _ _ hb).trans hst')
          ((jObjFind_jObjSet_same _ "loop" (loop_fields i n)).trans
            (congrArg some he2.symm))
          (by simp only [List.length_cons] at hlen; omega)
    exact key _ rfl

/-- C6: the element loop of an array for-loop runs its body exactly
once per element, in array order, and during the i-th iteration
(0-based) the additional data binds the loop variable to the i-th
element and the loop object to index = i, index1 = i + 1, is_first iff
i = 0 and is_last iff i = n - 1 — stated as agreement with the
specification-side runner spec_for_array_run, whose i-th body state
carries exactly loop_fields i n; an empty collection performs zero
iterations and leaves the state untouched; and the concrete template
over xs = [a, b, c] renders to 1:a;2:b;3:c;. -/
theorem C6_for_loop_fields :
    (∀ (body : RenderState → Except RFail RenderState) (value : String) (n pos : Nat)
      (xs : List JVal) (i : Nat) (st : RenderState) (gs : List (String × JVal)),
      (value == "loop") = false →
      (∀ s s', body s = .ok s' → s'.additional_data = s.additional_data) →
      st.additional_data = .obj gs →
      jObjFind gs "loop" = some (loop_entry_obj i n) →
      i + xs.length = n →
      for_array_go body value n pos xs i st = spec_for_array_run body value n xs i st) ∧
    (∀ (body : RenderState → Except RFail RenderState) (value : String) (n pos i : Nat)
      (st : RenderState), for_array_go body value n pos [] i st = .ok (i, st)) ∧
    render_node forloop_ctx forloop_node {} =
      .ok { additional_data := .obj [("loop", .obj [("is_first", .bool false),
              ("is_last", .bool true), ("index", .int 2), ("index1", .int 3),
              ("parent", .null)]), ("x", .str "")],
            output := "1:a;2:b;3:c;" } := by
  refine ⟨?_, ?_, forloop_example⟩
  · intro body value n pos xs i st gs hv hbody had hl hlen
    exact for_array_go_eq_spec body value hv n pos hbody xs i st gs had hl hlen
  · intro body value n pos i st
    rfl

/-- Witness for C6: a one-element loop with an output-only body agrees
with the specification runner at every hypothesis instantiated
concretely. -/
theorem C6_for_loop_fields_witness :
    for_array_go (fun s => .ok { s with output := s.output ++ "*" }) "v" 1 0 [.int 7] 0
        { additional_data := .obj [("loop", .obj [("is_first", .bool true),
            ("is_last", .bool true)])] } =
      spec_for_array_run (fun s => .ok { s with output := s.output ++ "*" }) "v" 1 [.int 7] 0
        { additional_data := .obj [("loop", .obj [("is_first", .bool true),
            ("is_last", .bool true)])] } :=
  C6_for_loop_fields.1 (fun s => .ok { s with output := s.output ++ "*" }) "v" 1 0
    [.int 7] 0
    { additional_data := .obj [("loop", .obj [("is_first", .bool true),
        ("is_last", .bool true)])] }
    [("loop", .obj [("is_first", .bool true), ("is_last", .bool true)])]
    rfl (fun s s' h => by cases h; rfl) rfl rfl rfl

end Inja
